import Mathlib

/-!
Verification development for the erki_boy DMG-class emulator core.

Shallow embedding of the Rust sources under src/src/ into Lean:
machine integers (u8 / u16 / usize) are modelled as Nat with explicit
wrap-around (% 256, % 65536) exactly where the Rust type would wrap;
code paths that abort the process in Rust are modelled as Option
(none = the Rust code aborts).  Memory regions are modelled as total
functions Nat -> Nat.  Each definition carries a reference to the Rust
item it embeds.
-/

set_option maxRecDepth 8000

namespace ErkiBoy

/-! ## src/src/cpu/flags_register.rs -/

/-- FlagsRegister struct (flags_register.rs lines 8-14). -/
structure FlagsRegister where
  zero : Bool
  subtract : Bool
  half_carry : Bool
  carry : Bool
deriving DecidableEq

/-- FlagsRegister::new (flags_register.rs lines 17-24). -/
def FlagsRegister.new : FlagsRegister :=
  { zero := false, subtract := false, half_carry := false, carry := false }

/-- impl From FlagsRegister for u8 (flags_register.rs lines 50-57):
bit 7 = zero, bit 6 = subtract, bit 5 = half carry, bit 4 = carry. -/
def FlagsRegister.to_byte (flag : FlagsRegister) : Nat :=
  ((if flag.zero then 1 else 0) <<< 7) |||
  ((if flag.subtract then 1 else 0) <<< 6) |||
  ((if flag.half_carry then 1 else 0) <<< 5) |||
  ((if flag.carry then 1 else 0) <<< 4)

/-- impl From u8 for FlagsRegister (flags_register.rs lines 59-73).
The Rust source masks each shifted byte with the literal 0x0b1 (hex 0xB1,
decimal 177); since the shifted operands are below 16, this behaves like
a mask with 1, which we reproduce verbatim. -/
def FlagsRegister.from_byte (byte : Nat) : FlagsRegister :=
  { zero := ((byte >>> 7) &&& 0xB1) ≠ 0
    subtract := ((byte >>> 6) &&& 0xB1) ≠ 0
    half_carry := ((byte >>> 5) &&& 0xB1) ≠ 0
    carry := ((byte >>> 4) &&& 0xB1) ≠ 0 }

/-! ## src/src/cpu/registers.rs -/

/-- Registers struct (registers.rs lines 3-13): eight 8-bit registers,
f held in unpacked form. -/
structure Registers where
  a : Nat
  b : Nat
  c : Nat
  d : Nat
  e : Nat
  f : FlagsRegister
  h : Nat
  l : Nat
deriving DecidableEq

/-- Registers::new (registers.rs lines 16-27). -/
def Registers.new : Registers :=
  { a := 0, b := 0, c := 0, d := 0, e := 0, f := FlagsRegister.new, h := 0, l := 0 }

/-- Registers::get_af (registers.rs lines 29-31). -/
def Registers.get_af (r : Registers) : Nat :=
  (r.a <<< 8) ||| r.f.to_byte

/-- Registers::set_af (registers.rs lines 32-35). -/
def Registers.set_af (r : Registers) (value : Nat) : Registers :=
  { r with a := (value &&& 0xFF00) >>> 8, f := FlagsRegister.from_byte (value &&& 0x00FF) }

/-- Registers::get_bc (registers.rs lines 37-39). -/
def Registers.get_bc (r : Registers) : Nat :=
  (r.b <<< 8) ||| r.c

/-- Registers::set_bc (registers.rs lines 40-43). -/
def Registers.set_bc (r : Registers) (value : Nat) : Registers :=
  { r with b := (value &&& 0xFF00) >>> 8, c := value &&& 0x00FF }

/-- Registers::get_de (registers.rs lines 45-47). -/
def Registers.get_de (r : Registers) : Nat :=
  (r.d <<< 8) ||| r.e

/-- Registers::set_de (registers.rs lines 48-51). -/
def Registers.set_de (r : Registers) (value : Nat) : Registers :=
  { r with d := (value &&& 0xFF00) >>> 8, e := value &&& 0x00FF }

/-- Registers::get_hl (registers.rs lines 53-55). -/
def Registers.get_hl (r : Registers) : Nat :=
  (r.h <<< 8) ||| r.l

/-- Registers::set_hl (registers.rs lines 56-59). -/
def Registers.set_hl (r : Registers) (value : Nat) : Registers :=
  { r with h := (value &&& 0xFF00) >>> 8, l := value &&& 0x00FF }


/-! ## src/src/cpu/instruction.rs -/

/-- RestartOffset enum (instruction.rs lines 59-69). -/
inductive RestartOffset where
  | D00H | D08H | D10H | D18H | D20H | D28H | D30H | D38H
deriving DecidableEq

/-- impl From RestartOffset for u16 (instruction.rs lines 71-84). -/
def RestartOffset.to_u16 : RestartOffset → Nat
  | .D00H => 0x00
  | .D08H => 0x08
  | .D10H => 0x10
  | .D18H => 0x18
  | .D20H => 0x20
  | .D28H => 0x28
  | .D30H => 0x30
  | .D38H => 0x38

/-- JumpTest enum (instruction.rs lines 86-93). -/
inductive JumpTest where
  | NotZero | Zero | NotCarry | Carry | Always
deriving DecidableEq

/-- StackTarget enum (instruction.rs lines 95-101). -/
inductive StackTarget where
  | AF | BC | DE | HL
deriving DecidableEq

/-- LoadWordTarget enum (instruction.rs lines 115-121). -/
inductive LoadWordTarget where
  | BC | DE | HL | SP
deriving DecidableEq

/-- Indirect enum (instruction.rs lines 123-131). -/
inductive Indirect where
  | BC | DE | HLPlus | HLMinus | Word | LastByte
deriving DecidableEq

/-- LoadByteTarget enum (instruction.rs lines 133-143). -/
inductive LoadByteTarget where
  | A | B | C | D | E | H | L | HLI
deriving DecidableEq

/-- LoadByteSource enum (instruction.rs lines 145-156). -/
inductive LoadByteSource where
  | A | B | C | D | E | H | L | D8 | HLI
deriving DecidableEq

/-- LoadType enum (instruction.rs lines 103-114). -/
inductive LoadType where
  | Byte (target : LoadByteTarget) (source : LoadByteSource)
  | Word (target : LoadWordTarget)
  | IndirectFromA (ind : Indirect)
  | AFromIndirect (ind : Indirect)
  | ByteAddressFromA
  | AFromByteAddress
  | SPFromHL
  | HLFromSPN
  | IndirectFromSP
deriving DecidableEq

/-- ArithmeticHLTarget enum (instruction.rs lines 158-164). -/
inductive ArithmeticHLTarget where
  | BC | DE | HL | SP
deriving DecidableEq

/-- ArithmeticTarget enum (instruction.rs lines 166-177). -/
inductive ArithmeticTarget where
  | A | B | C | D | E | H | L | HLI | D8
deriving DecidableEq

/-- IncDecTarget enum (instruction.rs lines 179-193). -/
inductive IncDecTarget where
  | A | B | C | D | E | H | L | BC | DE | HL | HLI | SP
deriving DecidableEq

/-- PrefixTarget enum (instruction.rs lines 195-205). -/
inductive PrefixTarget where
  | A | B | C | D | E | H | L | HLI
deriving DecidableEq

/-- BitPosition enum (instruction.rs lines 207-217). -/
inductive BitPosition where
  | B0 | B1 | B2 | B3 | B4 | B5 | B6 | B7
deriving DecidableEq

/-- impl From BitPosition for u8 (instruction.rs lines 219-232). -/
def BitPosition.to_u8 : BitPosition → Nat
  | .B0 => 0
  | .B1 => 1
  | .B2 => 2
  | .B3 => 3
  | .B4 => 4
  | .B5 => 5
  | .B6 => 6
  | .B7 => 7

/-- Instruction enum (instruction.rs lines 1-57).  Note: this snapshot has
no STOP variant (the decoder test at instruction.rs line 1066 marks the
STOP opcode 0x10 as a FIXME). -/
inductive Instruction where
  | NOP
  | HALT
  | DI
  | EI
  | RETI
  | CCF
  | SCF
  | RRA
  | RLA
  | RRCA
  | RLCA
  | CPL
  | ADDSP
  | DAA
  | RST (offset : RestartOffset)
  | CALL (test : JumpTest)
  | RET (test : JumpTest)
  | PUSH (target : StackTarget)
  | POP (target : StackTarget)
  | LD (ty : LoadType)
  | JP (test : JumpTest)
  | JR (test : JumpTest)
  | JPHL
  | ADC (target : ArithmeticTarget)
  | ADD (target : ArithmeticTarget)
  | SUB (target : ArithmeticTarget)
  | SBC (target : ArithmeticTarget)
  | AND (target : ArithmeticTarget)
  | OR (target : ArithmeticTarget)
  | XOR (target : ArithmeticTarget)
  | CP (target : ArithmeticTarget)
  | ADDHL (target : ArithmeticHLTarget)
  | INC (target : IncDecTarget)
  | DEC (target : IncDecTarget)
  | SRL (target : PrefixTarget)
  | RR (target : PrefixTarget)
  | RL (target : PrefixTarget)
  | RRC (target : PrefixTarget)
  | RLC (target : PrefixTarget)
  | SRA (target : PrefixTarget)
  | SLA (target : PrefixTarget)
  | SWAP (target : PrefixTarget)
  | BIT (target : PrefixTarget) (pos : BitPosition)
  | RES (target : PrefixTarget) (pos : BitPosition)
  | SET (target : PrefixTarget) (pos : BitPosition)
deriving DecidableEq

/-- Instruction::from_byte_prefixed (instruction.rs lines 243-535): the match on the
opcode byte is embedded as an equality chain in the same arm order;
the final wildcard arm returns none. -/
def Instruction.fromBytePrefixed (byte : Nat) : Option Instruction :=
  if byte = 0x00 then some (Instruction.RLC PrefixTarget.B)
  else if byte = 0x01 then some (Instruction.RLC PrefixTarget.C)
  else if byte = 0x02 then some (Instruction.RLC PrefixTarget.D)
  else if byte = 0x03 then some (Instruction.RLC PrefixTarget.E)
  else if byte = 0x04 then some (Instruction.RLC PrefixTarget.H)
  else if byte = 0x05 then some (Instruction.RLC PrefixTarget.L)
  else if byte = 0x06 then some (Instruction.RLC PrefixTarget.HLI)
  else if byte = 0x07 then some (Instruction.RLC PrefixTarget.A)
  else if byte = 0x08 then some (Instruction.RRC PrefixTarget.B)
  else if byte = 0x09 then some (Instruction.RRC PrefixTarget.C)
  else if byte = 0x0A then some (Instruction.RRC PrefixTarget.D)
  else if byte = 0x0B then some (Instruction.RRC PrefixTarget.E)
  else if byte = 0x0C then some (Instruction.RRC PrefixTarget.H)
  else if byte = 0x0D then some (Instruction.RRC PrefixTarget.L)
  else if byte = 0x0E then some (Instruction.RRC PrefixTarget.HLI)
  else if byte = 0x0F then some (Instruction.RRC PrefixTarget.A)
  else if byte = 0x10 then some (Instruction.RL PrefixTarget.B)
  else if byte = 0x11 then some (Instruction.RL PrefixTarget.C)
  else if byte = 0x12 then some (Instruction.RL PrefixTarget.D)
  else if byte = 0x13 then some (Instruction.RL PrefixTarget.E)
  else if byte = 0x14 then some (Instruction.RL PrefixTarget.H)
  else if byte = 0x15 then some (Instruction.RL PrefixTarget.L)
  else if byte = 0x16 then some (Instruction.RL PrefixTarget.HLI)
  else if byte = 0x17 then some (Instruction.RL PrefixTarget.A)
  else if byte = 0x18 then some (Instruction.RR PrefixTarget.B)
  else if byte = 0x19 then some (Instruction.RR PrefixTarget.C)
  else if byte = 0x1A then some (Instruction.RR PrefixTarget.D)
  else if byte = 0x1B then some (Instruction.RR PrefixTarget.E)
  else if byte = 0x1C then some (Instruction.RR PrefixTarget.H)
  else if byte = 0x1D then some (Instruction.RR PrefixTarget.L)
  else if byte = 0x1E then some (Instruction.RR PrefixTarget.HLI)
  else if byte = 0x1F then some (Instruction.RR PrefixTarget.A)
  else if byte = 0x20 then some (Instruction.SLA PrefixTarget.B)
  else if byte = 0x21 then some (Instruction.SLA PrefixTarget.C)
  else if byte = 0x22 then some (Instruction.SLA PrefixTarget.D)
  else if byte = 0x23 then some (Instruction.SLA PrefixTarget.E)
  else if byte = 0x24 then some (Instruction.SLA PrefixTarget.H)
  else if byte = 0x25 then some (Instruction.SLA PrefixTarget.L)
  else if byte = 0x26 then some (Instruction.SLA PrefixTarget.HLI)
  else if byte = 0x27 then some (Instruction.SLA PrefixTarget.A)
  else if byte = 0x28 then some (Instruction.SRA PrefixTarget.B)
  else if byte = 0x29 then some (Instruction.SRA PrefixTarget.C)
  else if byte = 0x2A then some (Instruction.SRA PrefixTarget.D)
  else if byte = 0x2B then some (Instruction.SRA PrefixTarget.E)
  else if byte = 0x2C then some (Instruction.SRA PrefixTarget.H)
  else if byte = 0x2D then some (Instruction.SRA PrefixTarget.L)
  else if byte = 0x2E then some (Instruction.SRA PrefixTarget.HLI)
  else if byte = 0x2F then some (Instruction.SRA PrefixTarget.A)
  else if byte = 0x30 then some (Instruction.SWAP PrefixTarget.B)
  else if byte = 0x31 then some (Instruction.SWAP PrefixTarget.C)
  else if byte = 0x32 then some (Instruction.SWAP PrefixTarget.D)
  else if byte = 0x33 then some (Instruction.SWAP PrefixTarget.E)
  else if byte = 0x34 then some (Instruction.SWAP PrefixTarget.H)
  else if byte = 0x35 then some (Instruction.SWAP PrefixTarget.L)
  else if byte = 0x36 then some (Instruction.SWAP PrefixTarget.HLI)
  else if byte = 0x37 then some (Instruction.SWAP PrefixTarget.A)
  else if byte = 0x38 then some (Instruction.SRL PrefixTarget.B)
  else if byte = 0x39 then some (Instruction.SRL PrefixTarget.C)
  else if byte = 0x3A then some (Instruction.SRL PrefixTarget.D)
  else if byte = 0x3B then some (Instruction.SRL PrefixTarget.E)
  else if byte = 0x3C then some (Instruction.SRL PrefixTarget.H)
  else if byte = 0x3D then some (Instruction.SRL PrefixTarget.L)
  else if byte = 0x3E then some (Instruction.SRL PrefixTarget.HLI)
  else if byte = 0x3F then some (Instruction.SRL PrefixTarget.A)
  else if byte = 0x40 then some (Instruction.BIT PrefixTarget.B BitPosition.B0)
  else if byte = 0x41 then some (Instruction.BIT PrefixTarget.C BitPosition.B0)
  else if byte = 0x42 then some (Instruction.BIT PrefixTarget.D BitPosition.B0)
  else if byte = 0x43 then some (Instruction.BIT PrefixTarget.E BitPosition.B0)
  else if byte = 0x44 then some (Instruction.BIT PrefixTarget.H BitPosition.B0)
  else if byte = 0x45 then some (Instruction.BIT PrefixTarget.L BitPosition.B0)
  else if byte = 0x46 then some (Instruction.BIT PrefixTarget.HLI BitPosition.B0)
  else if byte = 0x47 then some (Instruction.BIT PrefixTarget.A BitPosition.B0)
  else if byte = 0x48 then some (Instruction.BIT PrefixTarget.B BitPosition.B1)
  else if byte = 0x49 then some (Instruction.BIT PrefixTarget.C BitPosition.B1)
  else if byte = 0x4A then some (Instruction.BIT PrefixTarget.D BitPosition.B1)
  else if byte = 0x4B then some (Instruction.BIT PrefixTarget.E BitPosition.B1)
  else if byte = 0x4C then some (Instruction.BIT PrefixTarget.H BitPosition.B1)
  else if byte = 0x4D then some (Instruction.BIT PrefixTarget.L BitPosition.B1)
  else if byte = 0x4E then some (Instruction.BIT PrefixTarget.HLI BitPosition.B1)
  else if byte = 0x4F then some (Instruction.BIT PrefixTarget.A BitPosition.B1)
  else if byte = 0x50 then some (Instruction.BIT PrefixTarget.B BitPosition.B2)
  else if byte = 0x51 then some (Instruction.BIT PrefixTarget.C BitPosition.B2)
  else if byte = 0x52 then some (Instruction.BIT PrefixTarget.D BitPosition.B2)
  else if byte = 0x53 then some (Instruction.BIT PrefixTarget.E BitPosition.B2)
  else if byte = 0x54 then some (Instruction.BIT PrefixTarget.H BitPosition.B2)
  else if byte = 0x55 then some (Instruction.BIT PrefixTarget.L BitPosition.B2)
  else if byte = 0x56 then some (Instruction.BIT PrefixTarget.HLI BitPosition.B2)
  else if byte = 0x57 then some (Instruction.BIT PrefixTarget.A BitPosition.B2)
  else if byte = 0x58 then some (Instruction.BIT PrefixTarget.B BitPosition.B3)
  else if byte = 0x59 then some (Instruction.BIT PrefixTarget.C BitPosition.B3)
  else if byte = 0x5A then some (Instruction.BIT PrefixTarget.D BitPosition.B3)
  else if byte = 0x5B then some (Instruction.BIT PrefixTarget.E BitPosition.B3)
  else if byte = 0x5C then some (Instruction.BIT PrefixTarget.H BitPosition.B3)
  else if byte = 0x5D then some (Instruction.BIT PrefixTarget.L BitPosition.B3)
  else if byte = 0x5E then some (Instruction.BIT PrefixTarget.HLI BitPosition.B3)
  else if byte = 0x5F then some (Instruction.BIT PrefixTarget.A BitPosition.B3)
  else if byte = 0x60 then some (Instruction.BIT PrefixTarget.B BitPosition.B4)
  else if byte = 0x61 then some (Instruction.BIT PrefixTarget.C BitPosition.B4)
  else if byte = 0x62 then some (Instruction.BIT PrefixTarget.D BitPosition.B4)
  else if byte = 0x63 then some (Instruction.BIT PrefixTarget.E BitPosition.B4)
  else if byte = 0x64 then some (Instruction.BIT PrefixTarget.H BitPosition.B4)
  else if byte = 0x65 then some (Instruction.BIT PrefixTarget.L BitPosition.B4)
  else if byte = 0x66 then some (Instruction.BIT PrefixTarget.HLI BitPosition.B4)
  else if byte = 0x67 then some (Instruction.BIT PrefixTarget.A BitPosition.B4)
  else if byte = 0x68 then some (Instruction.BIT PrefixTarget.B BitPosition.B5)
  else if byte = 0x69 then some (Instruction.BIT PrefixTarget.C BitPosition.B5)
  else if byte = 0x6A then some (Instruction.BIT PrefixTarget.D BitPosition.B5)
  else if byte = 0x6B then some (Instruction.BIT PrefixTarget.E BitPosition.B5)
  else if byte = 0x6C then some (Instruction.BIT PrefixTarget.H BitPosition.B5)
  else if byte = 0x6D then some (Instruction.BIT PrefixTarget.L BitPosition.B5)
  else if byte = 0x6E then some (Instruction.BIT PrefixTarget.HLI BitPosition.B5)
  else if byte = 0x6F then some (Instruction.BIT PrefixTarget.A BitPosition.B5)
  else if byte = 0x70 then some (Instruction.BIT PrefixTarget.B BitPosition.B6)
  else if byte = 0x71 then some (Instruction.BIT PrefixTarget.C BitPosition.B6)
  else if byte = 0x72 then some (Instruction.BIT PrefixTarget.D BitPosition.B6)
  else if byte = 0x73 then some (Instruction.BIT PrefixTarget.E BitPosition.B6)
  else if byte = 0x74 then some (Instruction.BIT PrefixTarget.H BitPosition.B6)
  else if byte = 0x75 then some (Instruction.BIT PrefixTarget.L BitPosition.B6)
  else if byte = 0x76 then some (Instruction.BIT PrefixTarget.HLI BitPosition.B6)
  else if byte = 0x77 then some (Instruction.BIT PrefixTarget.A BitPosition.B6)
  else if byte = 0x78 then some (Instruction.BIT PrefixTarget.B BitPosition.B7)
  else if byte = 0x79 then some (Instruction.BIT PrefixTarget.C BitPosition.B7)
  else if byte = 0x7A then some (Instruction.BIT PrefixTarget.D BitPosition.B7)
  else if byte = 0x7B then some (Instruction.BIT PrefixTarget.E BitPosition.B7)
  else if byte = 0x7C then some (Instruction.BIT PrefixTarget.H BitPosition.B7)
  else if byte = 0x7D then some (Instruction.BIT PrefixTarget.L BitPosition.B7)
  else if byte = 0x7E then some (Instruction.BIT PrefixTarget.HLI BitPosition.B7)
  else if byte = 0x7F then some (Instruction.BIT PrefixTarget.A BitPosition.B7)
  else if byte = 0x80 then some (Instruction.RES PrefixTarget.B BitPosition.B0)
  else if byte = 0x81 then some (Instruction.RES PrefixTarget.C BitPosition.B0)
  else if byte = 0x82 then some (Instruction.RES PrefixTarget.D BitPosition.B0)
  else if byte = 0x83 then some (Instruction.RES PrefixTarget.E BitPosition.B0)
  else if byte = 0x84 then some (Instruction.RES PrefixTarget.H BitPosition.B0)
  else if byte = 0x85 then some (Instruction.RES PrefixTarget.L BitPosition.B0)
  else if byte = 0x86 then some (Instruction.RES PrefixTarget.HLI BitPosition.B0)
  else if byte = 0x87 then some (Instruction.RES PrefixTarget.A BitPosition.B0)
  else if byte = 0x88 then some (Instruction.RES PrefixTarget.B BitPosition.B1)
  else if byte = 0x89 then some (Instruction.RES PrefixTarget.C BitPosition.B1)
  else if byte = 0x8A then some (Instruction.RES PrefixTarget.D BitPosition.B1)
  else if byte = 0x8B then some (Instruction.RES PrefixTarget.E BitPosition.B1)
  else if byte = 0x8C then some (Instruction.RES PrefixTarget.H BitPosition.B1)
  else if byte = 0x8D then some (Instruction.RES PrefixTarget.L BitPosition.B1)
  else if byte = 0x8E then some (Instruction.RES PrefixTarget.HLI BitPosition.B1)
  else if byte = 0x8F then some (Instruction.RES PrefixTarget.A BitPosition.B1)
  else if byte = 0x90 then some (Instruction.RES PrefixTarget.B BitPosition.B2)
  else if byte = 0x91 then some (Instruction.RES PrefixTarget.C BitPosition.B2)
  else if byte = 0x92 then some (Instruction.RES PrefixTarget.D BitPosition.B2)
  else if byte = 0x93 then some (Instruction.RES PrefixTarget.E BitPosition.B2)
  else if byte = 0x94 then some (Instruction.RES PrefixTarget.H BitPosition.B2)
  else if byte = 0x95 then some (Instruction.RES PrefixTarget.L BitPosition.B2)
  else if byte = 0x96 then some (Instruction.RES PrefixTarget.HLI BitPosition.B2)
  else if byte = 0x97 then some (Instruction.RES PrefixTarget.A BitPosition.B2)
  else if byte = 0x98 then some (Instruction.RES PrefixTarget.B BitPosition.B3)
  else if byte = 0x99 then some (Instruction.RES PrefixTarget.C BitPosition.B3)
  else if byte = 0x9A then some (Instruction.RES PrefixTarget.D BitPosition.B3)
  else if byte = 0x9B then some (Instruction.RES PrefixTarget.E BitPosition.B3)
  else if byte = 0x9C then some (Instruction.RES PrefixTarget.H BitPosition.B3)
  else if byte = 0x9D then some (Instruction.RES PrefixTarget.L BitPosition.B3)
  else if byte = 0x9E then some (Instruction.RES PrefixTarget.HLI BitPosition.B3)
  else if byte = 0x9F then some (Instruction.RES PrefixTarget.A BitPosition.B3)
  else if byte = 0xA0 then some (Instruction.RES PrefixTarget.B BitPosition.B4)
  else if byte = 0xA1 then some (Instruction.RES PrefixTarget.C BitPosition.B4)
  else if byte = 0xA2 then some (Instruction.RES PrefixTarget.D BitPosition.B4)
  else if byte = 0xA3 then some (Instruction.RES PrefixTarget.E BitPosition.B4)
  else if byte = 0xA4 then some (Instruction.RES PrefixTarget.H BitPosition.B4)
  else if byte = 0xA5 then some (Instruction.RES PrefixTarget.L BitPosition.B4)
  else if byte = 0xA6 then some (Instruction.RES PrefixTarget.HLI BitPosition.B4)
  else if byte = 0xA7 then some (Instruction.RES PrefixTarget.A BitPosition.B4)
  else if byte = 0xA8 then some (Instruction.RES PrefixTarget.B BitPosition.B5)
  else if byte = 0xA9 then some (Instruction.RES PrefixTarget.C BitPosition.B5)
  else if byte = 0xAA then some (Instruction.RES PrefixTarget.D BitPosition.B5)
  else if byte = 0xAB then some (Instruction.RES PrefixTarget.E BitPosition.B5)
  else if byte = 0xAC then some (Instruction.RES PrefixTarget.H BitPosition.B5)
  else if byte = 0xAD then some (Instruction.RES PrefixTarget.L BitPosition.B5)
  else if byte = 0xAE then some (Instruction.RES PrefixTarget.HLI BitPosition.B5)
  else if byte = 0xAF then some (Instruction.RES PrefixTarget.A BitPosition.B5)
  else if byte = 0xB0 then some (Instruction.RES PrefixTarget.B BitPosition.B6)
  else if byte = 0xB1 then some (Instruction.RES PrefixTarget.C BitPosition.B6)
  else if byte = 0xB2 then some (Instruction.RES PrefixTarget.D BitPosition.B6)
  else if byte = 0xB3 then some (Instruction.RES PrefixTarget.E BitPosition.B6)
  else if byte = 0xB4 then some (Instruction.RES PrefixTarget.H BitPosition.B6)
  else if byte = 0xB5 then some (Instruction.RES PrefixTarget.L BitPosition.B6)
  else if byte = 0xB6 then some (Instruction.RES PrefixTarget.HLI BitPosition.B6)
  else if byte = 0xB7 then some (Instruction.RES PrefixTarget.A BitPosition.B6)
  else if byte = 0xB8 then some (Instruction.RES PrefixTarget.B BitPosition.B7)
  else if byte = 0xB9 then some (Instruction.RES PrefixTarget.C BitPosition.B7)
  else if byte = 0xBA then some (Instruction.RES PrefixTarget.D BitPosition.B7)
  else if byte = 0xBB then some (Instruction.RES PrefixTarget.E BitPosition.B7)
  else if byte = 0xBC then some (Instruction.RES PrefixTarget.H BitPosition.B7)
  else if byte = 0xBD then some (Instruction.RES PrefixTarget.L BitPosition.B7)
  else if byte = 0xBE then some (Instruction.RES PrefixTarget.HLI BitPosition.B7)
  else if byte = 0xBF then some (Instruction.RES PrefixTarget.A BitPosition.B7)
  else if byte = 0xC0 then some (Instruction.SET PrefixTarget.B BitPosition.B0)
  else if byte = 0xC1 then some (Instruction.SET PrefixTarget.C BitPosition.B0)
  else if byte = 0xC2 then some (Instruction.SET PrefixTarget.D BitPosition.B0)
  else if byte = 0xC3 then some (Instruction.SET PrefixTarget.E BitPosition.B0)
  else if byte = 0xC4 then some (Instruction.SET PrefixTarget.H BitPosition.B0)
  else if byte = 0xC5 then some (Instruction.SET PrefixTarget.L BitPosition.B0)
  else if byte = 0xC6 then some (Instruction.SET PrefixTarget.HLI BitPosition.B0)
  else if byte = 0xC7 then some (Instruction.SET PrefixTarget.A BitPosition.B0)
  else if byte = 0xC8 then some (Instruction.SET PrefixTarget.B BitPosition.B1)
  else if byte = 0xC9 then some (Instruction.SET PrefixTarget.C BitPosition.B1)
  else if byte = 0xCA then some (Instruction.SET PrefixTarget.D BitPosition.B1)
  else if byte = 0xCB then some (Instruction.SET PrefixTarget.E BitPosition.B1)
  else if byte = 0xCC then some (Instruction.SET PrefixTarget.H BitPosition.B1)
  else if byte = 0xCD then some (Instruction.SET PrefixTarget.L BitPosition.B1)
  else if byte = 0xCE then some (Instruction.SET PrefixTarget.HLI BitPosition.B1)
  else if byte = 0xCF then some (Instruction.SET PrefixTarget.A BitPosition.B1)
  else if byte = 0xD0 then some (Instruction.SET PrefixTarget.B BitPosition.B2)
  else if byte = 0xD1 then some (Instruction.SET PrefixTarget.C BitPosition.B2)
  else if byte = 0xD2 then some (Instruction.SET PrefixTarget.D BitPosition.B2)
  else if byte = 0xD3 then some (Instruction.SET PrefixTarget.E BitPosition.B2)
  else if byte = 0xD4 then some (Instruction.SET PrefixTarget.H BitPosition.B2)
  else if byte = 0xD5 then some (Instruction.SET PrefixTarget.L BitPosition.B2)
  else if byte = 0xD6 then some (Instruction.SET PrefixTarget.HLI BitPosition.B2)
  else if byte = 0xD7 then some (Instruction.SET PrefixTarget.A BitPosition.B2)
  else if byte = 0xD8 then some (Instruction.SET PrefixTarget.B BitPosition.B3)
  else if byte = 0xD9 then some (Instruction.SET PrefixTarget.C BitPosition.B3)
  else if byte = 0xDA then some (Instruction.SET PrefixTarget.D BitPosition.B3)
  else if byte = 0xDB then some (Instruction.SET PrefixTarget.E BitPosition.B3)
  else if byte = 0xDC then some (Instruction.SET PrefixTarget.H BitPosition.B3)
  else if byte = 0xDD then some (Instruction.SET PrefixTarget.L BitPosition.B3)
  else if byte = 0xDE then some (Instruction.SET PrefixTarget.HLI BitPosition.B3)
  else if byte = 0xDF then some (Instruction.SET PrefixTarget.A BitPosition.B3)
  else if byte = 0xE0 then some (Instruction.SET PrefixTarget.B BitPosition.B4)
  else if byte = 0xE1 then some (Instruction.SET PrefixTarget.C BitPosition.B4)
  else if byte = 0xE2 then some (Instruction.SET PrefixTarget.D BitPosition.B4)
  else if byte = 0xE3 then some (Instruction.SET PrefixTarget.E BitPosition.B4)
  else if byte = 0xE4 then some (Instruction.SET PrefixTarget.H BitPosition.B4)
  else if byte = 0xE5 then some (Instruction.SET PrefixTarget.L BitPosition.B4)
  else if byte = 0xE6 then some (Instruction.SET PrefixTarget.HLI BitPosition.B4)
  else if byte = 0xE7 then some (Instruction.SET PrefixTarget.A BitPosition.B4)
  else if byte = 0xE8 then some (Instruction.SET PrefixTarget.B BitPosition.B5)
  else if byte = 0xE9 then some (Instruction.SET PrefixTarget.C BitPosition.B5)
  else if byte = 0xEA then some (Instruction.SET PrefixTarget.D BitPosition.B5)
  else if byte = 0xEB then some (Instruction.SET PrefixTarget.E BitPosition.B5)
  else if byte = 0xEC then some (Instruction.SET PrefixTarget.H BitPosition.B5)
  else if byte = 0xED then some (Instruction.SET PrefixTarget.L BitPosition.B5)
  else if byte = 0xEE then some (Instruction.SET PrefixTarget.HLI BitPosition.B5)
  else if byte = 0xEF then some (Instruction.SET PrefixTarget.A BitPosition.B5)
  else if byte = 0xF0 then some (Instruction.SET PrefixTarget.B BitPosition.B6)
  else if byte = 0xF1 then some (Instruction.SET PrefixTarget.C BitPosition.B6)
  else if byte = 0xF2 then some (Instruction.SET PrefixTarget.D BitPosition.B6)
  else if byte = 0xF3 then some (Instruction.SET PrefixTarget.E BitPosition.B6)
  else if byte = 0xF4 then some (Instruction.SET PrefixTarget.H BitPosition.B6)
  else if byte = 0xF5 then some (Instruction.SET PrefixTarget.L BitPosition.B6)
  else if byte = 0xF6 then some (Instruction.SET PrefixTarget.HLI BitPosition.B6)
  else if byte = 0xF7 then some (Instruction.SET PrefixTarget.A BitPosition.B6)
  else if byte = 0xF8 then some (Instruction.SET PrefixTarget.B BitPosition.B7)
  else if byte = 0xF9 then some (Instruction.SET PrefixTarget.C BitPosition.B7)
  else if byte = 0xFA then some (Instruction.SET PrefixTarget.D BitPosition.B7)
  else if byte = 0xFB then some (Instruction.SET PrefixTarget.E BitPosition.B7)
  else if byte = 0xFC then some (Instruction.SET PrefixTarget.H BitPosition.B7)
  else if byte = 0xFD then some (Instruction.SET PrefixTarget.L BitPosition.B7)
  else if byte = 0xFE then some (Instruction.SET PrefixTarget.HLI BitPosition.B7)
  else if byte = 0xFF then some (Instruction.SET PrefixTarget.A BitPosition.B7)
  else none

/-- Instruction::from_byte_not_prefixed (instruction.rs lines 537-1038): the match on the
opcode byte is embedded as an equality chain in the same arm order;
the final wildcard arm returns none. -/
def Instruction.fromByteNotPrefixed (byte : Nat) : Option Instruction :=
  if byte = 0x80 then some (Instruction.ADD ArithmeticTarget.B)
  else if byte = 0x81 then some (Instruction.ADD ArithmeticTarget.C)
  else if byte = 0x82 then some (Instruction.ADD ArithmeticTarget.D)
  else if byte = 0x83 then some (Instruction.ADD ArithmeticTarget.E)
  else if byte = 0x84 then some (Instruction.ADD ArithmeticTarget.H)
  else if byte = 0x85 then some (Instruction.ADD ArithmeticTarget.L)
  else if byte = 0x86 then some (Instruction.ADD ArithmeticTarget.HLI)
  else if byte = 0x87 then some (Instruction.ADD ArithmeticTarget.A)
  else if byte = 0xC6 then some (Instruction.ADD ArithmeticTarget.D8)
  else if byte = 0xE8 then some Instruction.ADDSP
  else if byte = 0x8F then some (Instruction.ADC ArithmeticTarget.A)
  else if byte = 0x88 then some (Instruction.ADC ArithmeticTarget.B)
  else if byte = 0x89 then some (Instruction.ADC ArithmeticTarget.C)
  else if byte = 0x8A then some (Instruction.ADC ArithmeticTarget.D)
  else if byte = 0x8B then some (Instruction.ADC ArithmeticTarget.E)
  else if byte = 0x8c then some (Instruction.ADC ArithmeticTarget.H)
  else if byte = 0x8D then some (Instruction.ADC ArithmeticTarget.L)
  else if byte = 0x8E then some (Instruction.ADC ArithmeticTarget.HLI)
  else if byte = 0xCE then some (Instruction.ADC ArithmeticTarget.D8)
  else if byte = 0x97 then some (Instruction.SUB ArithmeticTarget.A)
  else if byte = 0x90 then some (Instruction.SUB ArithmeticTarget.B)
  else if byte = 0x91 then some (Instruction.SUB ArithmeticTarget.C)
  else if byte = 0x92 then some (Instruction.SUB ArithmeticTarget.D)
  else if byte = 0x93 then some (Instruction.SUB ArithmeticTarget.E)
  else if byte = 0x94 then some (Instruction.SUB ArithmeticTarget.H)
  else if byte = 0x95 then some (Instruction.SUB ArithmeticTarget.L)
  else if byte = 0x96 then some (Instruction.SUB ArithmeticTarget.HLI)
  else if byte = 0xD6 then some (Instruction.SUB ArithmeticTarget.D8)
  else if byte = 0x9F then some (Instruction.SBC ArithmeticTarget.A)
  else if byte = 0x98 then some (Instruction.SBC ArithmeticTarget.B)
  else if byte = 0x99 then some (Instruction.SBC ArithmeticTarget.C)
  else if byte = 0x9A then some (Instruction.SBC ArithmeticTarget.D)
  else if byte = 0x9B then some (Instruction.SBC ArithmeticTarget.E)
  else if byte = 0x9C then some (Instruction.SBC ArithmeticTarget.H)
  else if byte = 0x9D then some (Instruction.SBC ArithmeticTarget.L)
  else if byte = 0x9E then some (Instruction.SBC ArithmeticTarget.HLI)
  else if byte = 0xDE then some (Instruction.SBC ArithmeticTarget.D8)
  else if byte = 0xA7 then some (Instruction.AND ArithmeticTarget.A)
  else if byte = 0xA0 then some (Instruction.AND ArithmeticTarget.B)
  else if byte = 0xA1 then some (Instruction.AND ArithmeticTarget.C)
  else if byte = 0xA2 then some (Instruction.AND ArithmeticTarget.D)
  else if byte = 0xA3 then some (Instruction.AND ArithmeticTarget.E)
  else if byte = 0xA4 then some (Instruction.AND ArithmeticTarget.H)
  else if byte = 0xA5 then some (Instruction.AND ArithmeticTarget.L)
  else if byte = 0xA6 then some (Instruction.AND ArithmeticTarget.HLI)
  else if byte = 0xE6 then some (Instruction.AND ArithmeticTarget.D8)
  else if byte = 0xB7 then some (Instruction.OR ArithmeticTarget.A)
  else if byte = 0xB0 then some (Instruction.OR ArithmeticTarget.B)
  else if byte = 0xB1 then some (Instruction.OR ArithmeticTarget.C)
  else if byte = 0xB2 then some (Instruction.OR ArithmeticTarget.D)
  else if byte = 0xB3 then some (Instruction.OR ArithmeticTarget.E)
  else if byte = 0xB4 then some (Instruction.OR ArithmeticTarget.H)
  else if byte = 0xB5 then some (Instruction.OR ArithmeticTarget.L)
  else if byte = 0xB6 then some (Instruction.OR ArithmeticTarget.HLI)
  else if byte = 0xF6 then some (Instruction.OR ArithmeticTarget.D8)
  else if byte = 0xAF then some (Instruction.XOR ArithmeticTarget.A)
  else if byte = 0xA8 then some (Instruction.XOR ArithmeticTarget.B)
  else if byte = 0xA9 then some (Instruction.XOR ArithmeticTarget.C)
  else if byte = 0xAA then some (Instruction.XOR ArithmeticTarget.D)
  else if byte = 0xAB then some (Instruction.XOR ArithmeticTarget.E)
  else if byte = 0xAC then some (Instruction.XOR ArithmeticTarget.H)
  else if byte = 0xAD then some (Instruction.XOR ArithmeticTarget.L)
  else if byte = 0xAE then some (Instruction.XOR ArithmeticTarget.HLI)
  else if byte = 0xEE then some (Instruction.XOR ArithmeticTarget.D8)
  else if byte = 0xBF then some (Instruction.CP ArithmeticTarget.A)
  else if byte = 0xB8 then some (Instruction.CP ArithmeticTarget.B)
  else if byte = 0xB9 then some (Instruction.CP ArithmeticTarget.C)
  else if byte = 0xBA then some (Instruction.CP ArithmeticTarget.D)
  else if byte = 0xBB then some (Instruction.CP ArithmeticTarget.E)
  else if byte = 0xBC then some (Instruction.CP ArithmeticTarget.H)
  else if byte = 0xBD then some (Instruction.CP ArithmeticTarget.L)
  else if byte = 0xBE then some (Instruction.CP ArithmeticTarget.HLI)
  else if byte = 0xFE then some (Instruction.CP ArithmeticTarget.D8)
  else if byte = 0x3C then some (Instruction.INC IncDecTarget.A)
  else if byte = 0x04 then some (Instruction.INC IncDecTarget.B)
  else if byte = 0x0C then some (Instruction.INC IncDecTarget.C)
  else if byte = 0x14 then some (Instruction.INC IncDecTarget.D)
  else if byte = 0x1C then some (Instruction.INC IncDecTarget.E)
  else if byte = 0x24 then some (Instruction.INC IncDecTarget.H)
  else if byte = 0x2C then some (Instruction.INC IncDecTarget.L)
  else if byte = 0x34 then some (Instruction.INC IncDecTarget.HLI)
  else if byte = 0x3D then some (Instruction.DEC IncDecTarget.A)
  else if byte = 0x05 then some (Instruction.DEC IncDecTarget.B)
  else if byte = 0x0D then some (Instruction.DEC IncDecTarget.C)
  else if byte = 0x15 then some (Instruction.DEC IncDecTarget.D)
  else if byte = 0x1D then some (Instruction.DEC IncDecTarget.E)
  else if byte = 0x25 then some (Instruction.DEC IncDecTarget.H)
  else if byte = 0x2D then some (Instruction.DEC IncDecTarget.L)
  else if byte = 0x35 then some (Instruction.DEC IncDecTarget.HLI)
  else if byte = 0x3B then some (Instruction.DEC IncDecTarget.SP)
  else if byte = 0xC5 then some (Instruction.PUSH StackTarget.BC)
  else if byte = 0xD5 then some (Instruction.PUSH StackTarget.DE)
  else if byte = 0xE5 then some (Instruction.PUSH StackTarget.HL)
  else if byte = 0xF5 then some (Instruction.PUSH StackTarget.AF)
  else if byte = 0xC1 then some (Instruction.POP StackTarget.BC)
  else if byte = 0xD1 then some (Instruction.POP StackTarget.DE)
  else if byte = 0xE1 then some (Instruction.POP StackTarget.HL)
  else if byte = 0xF1 then some (Instruction.POP StackTarget.AF)
  else if byte = 0x06 then some (Instruction.LD (LoadType.Byte LoadByteTarget.B LoadByteSource.D8))
  else if byte = 0x0E then some (Instruction.LD (LoadType.Byte LoadByteTarget.C LoadByteSource.D8))
  else if byte = 0x16 then some (Instruction.LD (LoadType.Byte LoadByteTarget.D LoadByteSource.D8))
  else if byte = 0x1E then some (Instruction.LD (LoadType.Byte LoadByteTarget.E LoadByteSource.D8))
  else if byte = 0x26 then some (Instruction.LD (LoadType.Byte LoadByteTarget.H LoadByteSource.D8))
  else if byte = 0x2E then some (Instruction.LD (LoadType.Byte LoadByteTarget.L LoadByteSource.D8))
  else if byte = 0x36 then some (Instruction.LD (LoadType.Byte LoadByteTarget.HLI LoadByteSource.D8))
  else if byte = 0x3E then some (Instruction.LD (LoadType.Byte LoadByteTarget.A LoadByteSource.D8))
  else if byte = 0x40 then some (Instruction.LD (LoadType.Byte LoadByteTarget.B LoadByteSource.B))
  else if byte = 0x41 then some (Instruction.LD (LoadType.Byte LoadByteTarget.B LoadByteSource.C))
  else if byte = 0x42 then some (Instruction.LD (LoadType.Byte LoadByteTarget.B LoadByteSource.D))
  else if byte = 0x43 then some (Instruction.LD (LoadType.Byte LoadByteTarget.B LoadByteSource.E))
  else if byte = 0x44 then some (Instruction.LD (LoadType.Byte LoadByteTarget.B LoadByteSource.H))
  else if byte = 0x45 then some (Instruction.LD (LoadType.Byte LoadByteTarget.B LoadByteSource.L))
  else if byte = 0x46 then some (Instruction.LD (LoadType.Byte LoadByteTarget.B LoadByteSource.HLI))
  else if byte = 0x47 then some (Instruction.LD (LoadType.Byte LoadByteTarget.B LoadByteSource.A))
  else if byte = 0x48 then some (Instruction.LD (LoadType.Byte LoadByteTarget.C LoadByteSource.B))
  else if byte = 0x49 then some (Instruction.LD (LoadType.Byte LoadByteTarget.C LoadByteSource.C))
  else if byte = 0x4A then some (Instruction.LD (LoadType.Byte LoadByteTarget.C LoadByteSource.D))
  else if byte = 0x4B then some (Instruction.LD (LoadType.Byte LoadByteTarget.C LoadByteSource.E))
  else if byte = 0x4C then some (Instruction.LD (LoadType.Byte LoadByteTarget.C LoadByteSource.H))
  else if byte = 0x4D then some (Instruction.LD (LoadType.Byte LoadByteTarget.C LoadByteSource.L))
  else if byte = 0x4E then some (Instruction.LD (LoadType.Byte LoadByteTarget.C LoadByteSource.HLI))
  else if byte = 0x4F then some (Instruction.LD (LoadType.Byte LoadByteTarget.C LoadByteSource.A))
  else if byte = 0x50 then some (Instruction.LD (LoadType.Byte LoadByteTarget.D LoadByteSource.B))
  else if byte = 0x51 then some (Instruction.LD (LoadType.Byte LoadByteTarget.D LoadByteSource.C))
  else if byte = 0x52 then some (Instruction.LD (LoadType.Byte LoadByteTarget.D LoadByteSource.D))
  else if byte = 0x53 then some (Instruction.LD (LoadType.Byte LoadByteTarget.D LoadByteSource.E))
  else if byte = 0x54 then some (Instruction.LD (LoadType.Byte LoadByteTarget.D LoadByteSource.H))
  else if byte = 0x55 then some (Instruction.LD (LoadType.Byte LoadByteTarget.D LoadByteSource.L))
  else if byte = 0x56 then some (Instruction.LD (LoadType.Byte LoadByteTarget.D LoadByteSource.HLI))
  else if byte = 0x57 then some (Instruction.LD (LoadType.Byte LoadByteTarget.D LoadByteSource.A))
  else if byte = 0x58 then some (Instruction.LD (LoadType.Byte LoadByteTarget.E LoadByteSource.B))
  else if byte = 0x59 then some (Instruction.LD (LoadType.Byte LoadByteTarget.E LoadByteSource.C))
  else if byte = 0x5A then some (Instruction.LD (LoadType.Byte LoadByteTarget.E LoadByteSource.D))
  else if byte = 0x5B then some (Instruction.LD (LoadType.Byte LoadByteTarget.E LoadByteSource.E))
  else if byte = 0x5C then some (Instruction.LD (LoadType.Byte LoadByteTarget.E LoadByteSource.H))
  else if byte = 0x5D then some (Instruction.LD (LoadType.Byte LoadByteTarget.E LoadByteSource.L))
  else if byte = 0x5E then some (Instruction.LD (LoadType.Byte LoadByteTarget.E LoadByteSource.HLI))
  else if byte = 0x5F then some (Instruction.LD (LoadType.Byte LoadByteTarget.E LoadByteSource.A))
  else if byte = 0x60 then some (Instruction.LD (LoadType.Byte LoadByteTarget.H LoadByteSource.B))
  else if byte = 0x61 then some (Instruction.LD (LoadType.Byte LoadByteTarget.H LoadByteSource.C))
  else if byte = 0x62 then some (Instruction.LD (LoadType.Byte LoadByteTarget.H LoadByteSource.D))
  else if byte = 0x63 then some (Instruction.LD (LoadType.Byte LoadByteTarget.H LoadByteSource.E))
  else if byte = 0x64 then some (Instruction.LD (LoadType.Byte LoadByteTarget.H LoadByteSource.H))
  else if byte = 0x65 then some (Instruction.LD (LoadType.Byte LoadByteTarget.H LoadByteSource.L))
  else if byte = 0x66 then some (Instruction.LD (LoadType.Byte LoadByteTarget.H LoadByteSource.HLI))
  else if byte = 0x67 then some (Instruction.LD (LoadType.Byte LoadByteTarget.H LoadByteSource.A))
  else if byte = 0x68 then some (Instruction.LD (LoadType.Byte LoadByteTarget.L LoadByteSource.B))
  else if byte = 0x69 then some (Instruction.LD (LoadType.Byte LoadByteTarget.L LoadByteSource.C))
  else if byte = 0x6A then some (Instruction.LD (LoadType.Byte LoadByteTarget.L LoadByteSource.D))
  else if byte = 0x6B then some (Instruction.LD (LoadType.Byte LoadByteTarget.L LoadByteSource.E))
  else if byte = 0x6C then some (Instruction.LD (LoadType.Byte LoadByteTarget.L LoadByteSource.H))
  else if byte = 0x6D then some (Instruction.LD (LoadType.Byte LoadByteTarget.L LoadByteSource.L))
  else if byte = 0x6E then some (Instruction.LD (LoadType.Byte LoadByteTarget.L LoadByteSource.HLI))
  else if byte = 0x6F then some (Instruction.LD (LoadType.Byte LoadByteTarget.L LoadByteSource.A))
  else if byte = 0x70 then some (Instruction.LD (LoadType.Byte LoadByteTarget.HLI LoadByteSource.B))
  else if byte = 0x71 then some (Instruction.LD (LoadType.Byte LoadByteTarget.HLI LoadByteSource.C))
  else if byte = 0x72 then some (Instruction.LD (LoadType.Byte LoadByteTarget.HLI LoadByteSource.D))
  else if byte = 0x73 then some (Instruction.LD (LoadType.Byte LoadByteTarget.HLI LoadByteSource.E))
  else if byte = 0x74 then some (Instruction.LD (LoadType.Byte LoadByteTarget.HLI LoadByteSource.H))
  else if byte = 0x75 then some (Instruction.LD (LoadType.Byte LoadByteTarget.HLI LoadByteSource.L))
  else if byte = 0x76 then some (Instruction.LD (LoadType.Byte LoadByteTarget.HLI LoadByteSource.HLI))
  else if byte = 0x77 then some (Instruction.LD (LoadType.Byte LoadByteTarget.HLI LoadByteSource.A))
  else if byte = 0x78 then some (Instruction.LD (LoadType.Byte LoadByteTarget.A LoadByteSource.B))
  else if byte = 0x79 then some (Instruction.LD (LoadType.Byte LoadByteTarget.A LoadByteSource.C))
  else if byte = 0x7A then some (Instruction.LD (LoadType.Byte LoadByteTarget.A LoadByteSource.D))
  else if byte = 0x7B then some (Instruction.LD (LoadType.Byte LoadByteTarget.A LoadByteSource.E))
  else if byte = 0x7C then some (Instruction.LD (LoadType.Byte LoadByteTarget.A LoadByteSource.H))
  else if byte = 0x7D then some (Instruction.LD (LoadType.Byte LoadByteTarget.A LoadByteSource.L))
  else if byte = 0x7E then some (Instruction.LD (LoadType.Byte LoadByteTarget.A LoadByteSource.HLI))
  else if byte = 0x7F then some (Instruction.LD (LoadType.Byte LoadByteTarget.A LoadByteSource.A))
  else if byte = 0x09 then some (Instruction.ADDHL ArithmeticHLTarget.BC)
  else if byte = 0x19 then some (Instruction.ADDHL ArithmeticHLTarget.DE)
  else if byte = 0x29 then some (Instruction.ADDHL ArithmeticHLTarget.HL)
  else if byte = 0x39 then some (Instruction.ADDHL ArithmeticHLTarget.SP)
  else if byte = 0x03 then some (Instruction.INC IncDecTarget.BC)
  else if byte = 0x13 then some (Instruction.INC IncDecTarget.DE)
  else if byte = 0x23 then some (Instruction.INC IncDecTarget.HL)
  else if byte = 0x33 then some (Instruction.INC IncDecTarget.SP)
  else if byte = 0x0B then some (Instruction.DEC IncDecTarget.BC)
  else if byte = 0x1B then some (Instruction.DEC IncDecTarget.DE)
  else if byte = 0x2B then some (Instruction.DEC IncDecTarget.HL)
  else if byte = 0xC4 then some (Instruction.CALL JumpTest.NotZero)
  else if byte = 0xD4 then some (Instruction.CALL JumpTest.NotCarry)
  else if byte = 0xCC then some (Instruction.CALL JumpTest.Zero)
  else if byte = 0xDC then some (Instruction.CALL JumpTest.Carry)
  else if byte = 0xCD then some (Instruction.CALL JumpTest.Always)
  else if byte = 0xC0 then some (Instruction.RET JumpTest.NotZero)
  else if byte = 0xD0 then some (Instruction.RET JumpTest.NotCarry)
  else if byte = 0xC8 then some (Instruction.RET JumpTest.Zero)
  else if byte = 0xD8 then some (Instruction.RET JumpTest.Carry)
  else if byte = 0xC9 then some (Instruction.RET JumpTest.Always)
  else if byte = 0x2F then some Instruction.CPL
  else if byte = 0x3F then some Instruction.CCF
  else if byte = 0x37 then some Instruction.SCF
  else if byte = 0x27 then some Instruction.DAA
  else if byte = 0x00 then some Instruction.NOP
  else if byte = 0xD9 then some Instruction.RETI
  else if byte = 0xF3 then some Instruction.DI
  else if byte = 0xFB then some Instruction.EI
  else if byte = 0x01 then some (Instruction.LD (LoadType.Word LoadWordTarget.BC))
  else if byte = 0x11 then some (Instruction.LD (LoadType.Word LoadWordTarget.DE))
  else if byte = 0x21 then some (Instruction.LD (LoadType.Word LoadWordTarget.HL))
  else if byte = 0x31 then some (Instruction.LD (LoadType.Word LoadWordTarget.SP))
  else if byte = 0x02 then some (Instruction.LD (LoadType.IndirectFromA Indirect.BC))
  else if byte = 0x12 then some (Instruction.LD (LoadType.IndirectFromA Indirect.DE))
  else if byte = 0x22 then some (Instruction.LD (LoadType.IndirectFromA Indirect.HLPlus))
  else if byte = 0x32 then some (Instruction.LD (LoadType.IndirectFromA Indirect.HLMinus))
  else if byte = 0xEA then some (Instruction.LD (LoadType.IndirectFromA Indirect.Word))
  else if byte = 0xE2 then some (Instruction.LD (LoadType.IndirectFromA Indirect.LastByte))
  else if byte = 0x07 then some Instruction.RLCA
  else if byte = 0x17 then some Instruction.RLA
  else if byte = 0x0F then some Instruction.RRCA
  else if byte = 0x1F then some Instruction.RRA
  else if byte = 0x08 then some (Instruction.LD LoadType.IndirectFromSP)
  else if byte = 0xE0 then some (Instruction.LD LoadType.ByteAddressFromA)
  else if byte = 0xF0 then some (Instruction.LD LoadType.AFromByteAddress)
  else if byte = 0xF8 then some (Instruction.LD LoadType.HLFromSPN)
  else if byte = 0xF9 then some (Instruction.LD LoadType.SPFromHL)
  else if byte = 0x0A then some (Instruction.LD (LoadType.AFromIndirect Indirect.BC))
  else if byte = 0x1A then some (Instruction.LD (LoadType.AFromIndirect Indirect.DE))
  else if byte = 0x2A then some (Instruction.LD (LoadType.AFromIndirect Indirect.HLPlus))
  else if byte = 0x3A then some (Instruction.LD (LoadType.AFromIndirect Indirect.HLMinus))
  else if byte = 0xFA then some (Instruction.LD (LoadType.AFromIndirect Indirect.Word))
  else if byte = 0xF2 then some (Instruction.LD (LoadType.AFromIndirect Indirect.LastByte))
  else if byte = 0xC7 then some (Instruction.RST RestartOffset.D00H)
  else if byte = 0xCF then some (Instruction.RST RestartOffset.D08H)
  else if byte = 0xD7 then some (Instruction.RST RestartOffset.D10H)
  else if byte = 0xDF then some (Instruction.RST RestartOffset.D18H)
  else if byte = 0xE7 then some (Instruction.RST RestartOffset.D20H)
  else if byte = 0xEF then some (Instruction.RST RestartOffset.D28H)
  else if byte = 0xF7 then some (Instruction.RST RestartOffset.D30H)
  else if byte = 0xFF then some (Instruction.RST RestartOffset.D38H)
  else if byte = 0xC3 then some (Instruction.JP JumpTest.Always)
  else if byte = 0xC2 then some (Instruction.JP JumpTest.NotZero)
  else if byte = 0xCA then some (Instruction.JP JumpTest.Zero)
  else if byte = 0xD2 then some (Instruction.JP JumpTest.NotCarry)
  else if byte = 0xDA then some (Instruction.JP JumpTest.Carry)
  else if byte = 0xE9 then some Instruction.JPHL
  else if byte = 0x18 then some (Instruction.JR JumpTest.Always)
  else if byte = 0x20 then some (Instruction.JR JumpTest.NotZero)
  else if byte = 0x28 then some (Instruction.JR JumpTest.Zero)
  else if byte = 0x30 then some (Instruction.JR JumpTest.NotCarry)
  else if byte = 0x38 then some (Instruction.JR JumpTest.Carry)
  else none

/-- Instruction::from_byte (instruction.rs lines 235-241). -/
def Instruction.from_byte (byte : Nat) (prefixed : Bool) : Option Instruction :=
  if prefixed then Instruction.fromBytePrefixed byte
  else Instruction.fromByteNotPrefixed byte


/-! ## src/src/interrupts.rs -/

/-- InterruptLocation enum (interrupts.rs lines 1-7). -/
inductive InterruptLocation where
  | VBlank | LCD | Timer | Serial | Joypad
deriving DecidableEq

/-- Numeric value of each InterruptLocation (the enum discriminants
0x40, 0x48, 0x50, 0x58, 0x60 in interrupts.rs lines 1-7). -/
def InterruptLocation.addr : InterruptLocation → Nat
  | .VBlank => 0x40
  | .LCD => 0x48
  | .Timer => 0x50
  | .Serial => 0x58
  | .Joypad => 0x60

/-- Interrupts struct (interrupts.rs lines 9-15). -/
structure Interrupts where
  vertical_blank_interrupt : Bool
  lcd_c_interrupt : Bool
  timer_interrupt : Bool
  serial_transfer_interrupt : Bool
  control_interrupt : Bool
deriving DecidableEq

/-- Interrupts::new (interrupts.rs lines 18-26). -/
def Interrupts.new : Interrupts :=
  { vertical_blank_interrupt := false
    lcd_c_interrupt := false
    timer_interrupt := false
    serial_transfer_interrupt := false
    control_interrupt := false }

/-- Interrupts::from_byte (interrupts.rs lines 28-34): overwrites all five
bits from the low five bits of the byte. -/
def Interrupts.from_byte (byte : Nat) : Interrupts :=
  { vertical_blank_interrupt := (byte &&& 0b1) = 1
    lcd_c_interrupt := ((byte >>> 1) &&& 0b1) = 1
    timer_interrupt := ((byte >>> 2) &&& 0b1) = 1
    serial_transfer_interrupt := ((byte >>> 3) &&& 0b1) = 1
    control_interrupt := ((byte >>> 4) &&& 0b1) = 1 }

/-- Interrupts::to_byte (interrupts.rs lines 36-42). -/
def Interrupts.to_byte (i : Interrupts) : Nat :=
  (if i.vertical_blank_interrupt then 1 else 0) |||
  ((if i.lcd_c_interrupt then 1 else 0) <<< 1) |||
  ((if i.timer_interrupt then 1 else 0) <<< 2) |||
  ((if i.serial_transfer_interrupt then 1 else 0) <<< 3) |||
  ((if i.control_interrupt then 1 else 0) <<< 4)

/-! ## src/src/memory_bus.rs: timer and divider -/

/-- TimerFrequency enum (memory_bus.rs lines 53-58). -/
inductive TimerFrequency where
  | F4096 | F16384 | F65536 | F262144
deriving DecidableEq

/-- TimerFrequency::in_ticks (memory_bus.rs lines 60-69). -/
def TimerFrequency.in_ticks : TimerFrequency → Nat
  | .F4096 => 1024
  | .F16384 => 256
  | .F65536 => 64
  | .F262144 => 16

/-- Timer struct (memory_bus.rs lines 72-78).  value and modulo are u8,
cycles is a usize accumulator. -/
structure Timer where
  frequency : TimerFrequency
  cycles : Nat
  value : Nat
  modulo : Nat
  active : Bool
deriving DecidableEq

/-- Timer::new (memory_bus.rs lines 82-90). -/
def Timer.new : Timer :=
  { frequency := .F4096, cycles := 0, value := 0, modulo := 0, active := false }

/-- Timer::step (memory_bus.rs lines 92-113).  Inactive timers return
early.  Otherwise the cycle accumulator grows by the argument; only when
it STRICTLY exceeds the period does the counter tick (u8 overflowing_add:
wrap modulo 256, overflow when the pre-increment value was 255), the
accumulator is reduced modulo the period, and an overflowing counter is
reloaded from modulo.  Returns the overflow flag. -/
def Timer.step (t : Timer) (cycles : Nat) : Timer × Bool :=
  if !t.active then (t, false)
  else
    let cyc := t.cycles + cycles
    let cycles_per_tick := t.frequency.in_ticks
    if cyc > cycles_per_tick then
      let cyc2 := cyc % cycles_per_tick
      let new := (t.value + 1) % 256
      let overflow := decide (t.value + 1 ≥ 256)
      let value2 := if overflow then t.modulo else new
      ({ t with cycles := cyc2, value := value2 }, overflow)
    else
      ({ t with cycles := cyc }, false)

/-- Divider struct (memory_bus.rs lines 117-119): a single u8 value. --/
structure Divider where
  value : Nat
deriving DecidableEq

/-- Divider::step (memory_bus.rs lines 122-124): value.wrapping_add(cycles
as u8), i.e. the u16 cycle count is truncated to u8 and added modulo 256. -/
def Divider.step (d : Divider) (cycles : Nat) : Divider :=
  { value := (d.value + cycles % 256) % 256 }

/-! ## src/src/gpu.rs -/

/-- TileData enum (gpu.rs lines 13-17). -/
inductive TileData where
  | Ox8000 | Ox8800
deriving DecidableEq

/-- TileMap enum (gpu.rs lines 19-23). -/
inductive TileMap where
  | Ox9800 | Ox9C00
deriving DecidableEq

/-- ObjSize enum (gpu.rs lines 48-52). -/
inductive ObjSize where
  | Size8x8 | Size8x16
deriving DecidableEq

/-- Mode enum (gpu.rs lines 79-87). -/
inductive Mode where
  | HBlank | VBlank | OAMAccess | VRAMAccess
deriving DecidableEq

/-- Color enum (gpu.rs lines 89-95). -/
inductive Color where
  | White | LightGray | DarkGray | Black
deriving DecidableEq

/-- The enum discriminants of Color (gpu.rs lines 89-95). -/
def Color.val : Color → Nat
  | .White => 255
  | .LightGray => 192
  | .DarkGray => 96
  | .Black => 0

/-- impl From u8 for Color (gpu.rs lines 97-107).  Values above 3 abort
the process in Rust, hence none. -/
def Color.from_u8 (value : Nat) : Option Color :=
  if value = 0 then some .White
  else if value = 1 then some .LightGray
  else if value = 2 then some .DarkGray
  else if value = 3 then some .Black
  else none

/-- Palette tuple struct (gpu.rs line 122): four colors, fields c0-c3
standing for the tuple positions .0-.3. -/
structure Palette where
  c0 : Color
  c1 : Color
  c2 : Color
  c3 : Color
deriving DecidableEq

/-- Palette::new (gpu.rs lines 124-132). -/
def Palette.new : Palette :=
  { c0 := .White, c1 := .LightGray, c2 := .DarkGray, c3 := .Black }

/-- impl From u8 for Palette (gpu.rs lines 133-142): entries are assigned
LSB-first, two bits each.  The fourth entry uses the unmasked value >> 6,
which is at most 3 for byte inputs; larger model inputs yield none. -/
def Palette.from_byte (value : Nat) : Option Palette := do
  let a ← Color.from_u8 (value &&& 0b11)
  let b ← Color.from_u8 ((value >>> 2) &&& 0b11)
  let c ← Color.from_u8 ((value >>> 4) &&& 0b11)
  let d ← Color.from_u8 (value >>> 6)
  return { c0 := a, c1 := b, c2 := c, c3 := d }

/-- GPU struct (gpu.rs lines 144-211).  The screen_buffer, tile_set and
obj_data fields are not modelled: they are written only by
render_scanline / write_vram / write_oam and read only by the renderer,
and no claim in this development observes rendered output.  The four
STAT interrupt-enable booleans are commented out in the gpu.rs struct
(lines 196-200) but are read and written by memory_bus.rs (0xFF41); they
are included here so that the bus code can be embedded, defaulting to
false. -/
structure GPU where
  video_ram : Nat → Nat
  oam : Nat → Nat
  cycles : Nat
  lcd_display_enabled : Bool
  lcd_y_compare : Nat
  background_window_tile_data : TileData
  background_tile_map : TileMap
  background_display_enabled : Bool
  background_window_palette : Palette
  obj_size : ObjSize
  obj_display_enable : Bool
  obj_0_palette : Palette
  obj_1_palette : Palette
  lcd_y_coordinate : Nat
  lcd_mode : Mode
  window_tile_map : TileMap
  window_display_enabled : Bool
  window_x : Nat
  window_y : Nat
  scroll_x : Nat
  scroll_y : Nat
  lyc_interrupt_enabled : Bool
  oam_interrupt_enabled : Bool
  vblank_interrupt_enabled : Bool
  hblank_interrupt_enabled : Bool

/-- GPU::new (gpu.rs lines 214-243). -/
def GPU.new : GPU :=
  { video_ram := fun _ => 0xFF
    oam := fun _ => 0xFF
    cycles := 0
    lcd_display_enabled := false
    lcd_y_compare := 0
    background_window_tile_data := .Ox8000
    background_tile_map := .Ox9800
    background_display_enabled := false
    background_window_palette := Palette.new
    obj_size := .Size8x8
    obj_display_enable := false
    obj_0_palette := Palette.new
    obj_1_palette := Palette.new
    lcd_y_coordinate := 0
    lcd_mode := .HBlank
    window_tile_map := .Ox9800
    window_display_enabled := false
    window_x := 0
    window_y := 0
    scroll_x := 0
    scroll_y := 0
    lyc_interrupt_enabled := false
    oam_interrupt_enabled := false
    vblank_interrupt_enabled := false
    hblank_interrupt_enabled := false }

/-- Pointwise function update, used for the Nat -> Nat memory regions. -/
def updf (f : Nat → Nat) (a v : Nat) : Nat → Nat :=
  fun x => if x = a then v else f x

/-- GPU::write_vram (gpu.rs lines 298-327): stores the byte into VRAM.
The tile_set re-decode performed for addresses below 0x1800 only feeds
the renderer and is not modelled (see the GPU struct comment). -/
def GPU.write_vram (gpu : GPU) (address value : Nat) : GPU :=
  { gpu with video_ram := updf gpu.video_ram address value }

/-- GPU::write_oam (gpu.rs lines 329-356): stores the byte into OAM.
The obj_data entry update only feeds the renderer and is not modelled
(see the GPU struct comment). -/
def GPU.write_oam (gpu : GPU) (index value : Nat) : GPU :=
  { gpu with oam := updf gpu.oam index value }

/-- GPU::step (gpu.rs lines 245-296): the scanline mode state machine.
Does nothing while the LCD is disabled; otherwise adds the cycles to the
u16 accumulator (modelled with explicit wrap modulo 65536) and performs
at most one mode transition.  render_scanline (called on the
VRAMAccess to HBlank transition) writes only the screen buffer, which is
not modelled. -/
def GPU.step (gpu : GPU) (cycles : Nat) : GPU :=
  if !gpu.lcd_display_enabled then gpu
  else
    let gpu := { gpu with cycles := (gpu.cycles + cycles) % 65536 }
    match gpu.lcd_mode with
    | .OAMAccess =>
        if gpu.cycles ≥ 80 then
          { gpu with lcd_mode := .VRAMAccess, cycles := gpu.cycles % 80 }
        else gpu
    | .VRAMAccess =>
        if gpu.cycles ≥ 172 then
          { gpu with cycles := gpu.cycles % 172, lcd_mode := .HBlank }
        else gpu
    | .HBlank =>
        if gpu.cycles ≥ 200 then
          let gpu := { gpu with cycles := gpu.cycles % 200,
                                lcd_y_coordinate := (gpu.lcd_y_coordinate + 1) % 256 }
          if gpu.lcd_y_coordinate ≥ 144 then
            { gpu with lcd_mode := .VBlank }
          else
            { gpu with lcd_mode := .OAMAccess }
        else gpu
    | .VBlank =>
        if gpu.cycles ≥ 456 then
          let gpu := { gpu with cycles := gpu.cycles % 456,
                                lcd_y_coordinate := (gpu.lcd_y_coordinate + 1) % 256 }
          if gpu.lcd_y_coordinate = 154 then
            { gpu with lcd_mode := .OAMAccess, lcd_y_coordinate := 0 }
          else gpu
        else gpu

/-- Modelled from the spec: the (vblank, lcd) interrupt outputs of
GPU::step.  MemoryBus::step (memory_bus.rs line 218) destructures a
(vblank, lcd) pair from gpu.step, but GPU::step in src/src/gpu.rs
returns nothing and its TODO comments (gpu.rs lines 263, 275, 279, 291)
leave the interrupt assertions unimplemented, so this part of the
repository is missing from src/.  Following the spec (section 4.8:
the bus step merges the pipeline V-blank assertion into IF, and
section 4.7: V-blank begins when LY reaches 144), the vblank output is
modelled as "this call moved the pipeline into V-blank mode"; the
LCD-stat output, whose trigger the spec leaves open, is modelled as
false (matching the unimplemented TODO in the source). -/
def GPU.step_interrupts (gpu : GPU) (cycles : Nat) : GPU × Bool × Bool :=
  let g2 := gpu.step cycles
  (g2, (!(gpu.lcd_mode == Mode.VBlank)) && (g2.lcd_mode == Mode.VBlank), false)


/-! ## src/src/memory_bus.rs: the bus -/

/-- MemoryBus struct (memory_bus.rs lines 144-173).  The fixed-size u8
arrays are modelled as total functions from Nat. -/
structure MemoryBus where
  boot_rom : Option (Nat → Nat)
  rom_bank : Nat → Nat
  switchable_rom_bank : Nat → Nat
  external_ram : Nat → Nat
  working_ram : Nat → Nat
  high_ram : Nat → Nat
  timer : Timer
  divider : Divider
  interrupts_enabled : Interrupts
  interrupt_flags : Interrupts
  gpu : GPU

/-- MemoryBus::new (memory_bus.rs lines 180-209).  game_rom gives the
byte at each index of the cartridge buffer; the length check performed
by copy_from_slice (the buffer must hold at least 0x8000 bytes) is a
precondition of the constructor, not modelled. -/
def MemoryBus.new (boot_rom_buffer : Option (Nat → Nat)) (game_rom_buffer : Nat → Nat) :
    MemoryBus :=
  { boot_rom := boot_rom_buffer
    rom_bank := fun a => game_rom_buffer a
    switchable_rom_bank := fun a => game_rom_buffer (0x4000 + a)
    external_ram := fun _ => 0xFF
    working_ram := fun _ => 0xFF
    high_ram := fun _ => 0xFF
    interrupts_enabled := Interrupts.new
    interrupt_flags := Interrupts.new
    timer := Timer.new
    divider := { value := 0 }
    gpu := GPU.new }

/-- MemoryBus::new_empty_memory (memory_bus.rs lines 176-178). -/
def MemoryBus.new_empty_memory : MemoryBus :=
  MemoryBus.new none (fun _ => 0)

/-- MemoryBus::step (memory_bus.rs lines 211-221): ticks the timer
(merging an overflow into the Timer bit of IF), the divider, and the
GPU, OVERWRITING the V-blank and LCD bits of IF with the GPU outputs. -/
def MemoryBus.step (bus : MemoryBus) (cycles : Nat) : MemoryBus :=
  let tr := bus.timer.step cycles
  let iflags :=
    if tr.2 then { bus.interrupt_flags with timer_interrupt := true }
    else bus.interrupt_flags
  let divider := bus.divider.step cycles
  let go := bus.gpu.step_interrupts cycles
  { bus with
      timer := tr.1
      divider := divider
      gpu := go.1
      interrupt_flags :=
        { iflags with
            vertical_blank_interrupt := go.2.1
            lcd_c_interrupt := go.2.2 } }

/-- MemoryBus::interrupted (memory_bus.rs lines 223-235): true when some
interrupt has BOTH its enable bit and its flag bit set. -/
def MemoryBus.interrupted (bus : MemoryBus) : Bool :=
  (bus.interrupts_enabled.vertical_blank_interrupt &&
    bus.interrupt_flags.vertical_blank_interrupt) ||
  (bus.interrupts_enabled.lcd_c_interrupt &&
    bus.interrupt_flags.lcd_c_interrupt) ||
  (bus.interrupts_enabled.timer_interrupt &&
    bus.interrupt_flags.timer_interrupt) ||
  (bus.interrupts_enabled.serial_transfer_interrupt &&
    bus.interrupt_flags.serial_transfer_interrupt) ||
  (bus.interrupts_enabled.control_interrupt &&
    bus.interrupt_flags.control_interrupt)

/-- MemoryBus::read_from_io (memory_bus.rs lines 308-368).  Arms that do
nothing fall through to the final return 0 of the Rust function; an
address outside the handled set aborts the process (none). -/
def MemoryBus.read_from_io (bus : MemoryBus) (address : Nat) : Option Nat :=
  if address = 0xFF00 then some 0
  else if address = 0xFF01 then some 0
  else if address = 0xFF02 then some 0
  else if address = 0xFF04 then some bus.divider.value
  else if address = 0xFF05 then some bus.timer.value
  else if address = 0xFF06 then some bus.timer.modulo
  else if address = 0xFF07 then
    let freq : Nat :=
      match bus.timer.frequency with
      | .F4096 => 0
      | .F262144 => 1
      | .F65536 => 2
      | .F16384 => 3
    some (((if bus.timer.active then 1 else 0) <<< 2) ||| freq)
  else if address = 0xFF0F then some bus.interrupt_flags.to_byte
  else if address = 0xFF40 then
    some (((if bus.gpu.lcd_display_enabled then 1 else 0) <<< 7) |||
      ((if bus.gpu.window_tile_map = TileMap.Ox9C00 then 1 else 0) <<< 6) |||
      ((if bus.gpu.window_display_enabled then 1 else 0) <<< 5) |||
      ((if bus.gpu.background_window_tile_data = TileData.Ox8000 then 1 else 0) <<< 4) |||
      ((if bus.gpu.background_tile_map = TileMap.Ox9C00 then 1 else 0) <<< 3) |||
      ((if bus.gpu.obj_size = ObjSize.Size8x16 then 1 else 0) <<< 2) |||
      ((if bus.gpu.obj_display_enable then 1 else 0) <<< 1) |||
      (if bus.gpu.background_display_enabled then 1 else 0))
  else if address = 0xFF41 then
    let mode : Nat :=
      match bus.gpu.lcd_mode with
      | .HBlank => 0
      | .VBlank => 1
      | .OAMAccess => 2
      | .VRAMAccess => 3
    some (((if bus.gpu.lyc_interrupt_enabled then 1 else 0) <<< 6) |||
      ((if bus.gpu.oam_interrupt_enabled then 1 else 0) <<< 5) |||
      ((if bus.gpu.vblank_interrupt_enabled then 1 else 0) <<< 4) |||
      ((if bus.gpu.hblank_interrupt_enabled then 1 else 0) <<< 3) |||
      mode)
  else if address = 0xFF42 then some bus.gpu.scroll_y
  else if address = 0xFF43 then some bus.gpu.scroll_x
  else if address = 0xFF44 then some bus.gpu.lcd_y_coordinate
  else if address = 0xFF45 then some bus.gpu.lcd_y_compare
  else if address = 0xFF4D then some 0
  else none

/-- MemoryBus::write_to_io (memory_bus.rs lines 370-532).  Arms with an
empty body are accepted and ignored; an address outside the handled set
aborts the process (none).  Note the 0xFF01 arm: writing the serial data
register only raises the Serial bit of IF and discards the byte. -/
def MemoryBus.write_to_io (bus : MemoryBus) (address byte : Nat) : Option MemoryBus :=
  if address = 0xFF00 then some bus
  else if address = 0xFF01 then
    some { bus with interrupt_flags :=
      { bus.interrupt_flags with serial_transfer_interrupt := true } }
  else if address = 0xFF02 then some bus
  else if address = 0xFF04 then some { bus with divider := { value := 0 } }
  else if address = 0xFF05 then some { bus with timer := { bus.timer with value := byte } }
  else if address = 0xFF06 then some { bus with timer := { bus.timer with modulo := byte } }
  else if address = 0xFF07 then
    let active := ((byte >>> 2) &&& 0b1) = 1
    let clock_select := byte &&& 0b11
    if clock_select = 0 then
      some { bus with timer := { bus.timer with active := active, frequency := .F4096 } }
    else if clock_select = 1 then
      some { bus with timer := { bus.timer with active := active, frequency := .F262144 } }
    else if clock_select = 2 then
      some { bus with timer := { bus.timer with active := active, frequency := .F65536 } }
    else if clock_select = 3 then
      some { bus with timer := { bus.timer with active := active, frequency := .F16384 } }
    else none
  else if address = 0xFF0F then
    some { bus with interrupt_flags := Interrupts.from_byte byte }
  else if address = 0xFF10 then some bus
  else if address = 0xFF11 then some bus
  else if address = 0xFF12 then some bus
  else if address = 0xFF13 then some bus
  else if address = 0xFF14 then some bus
  else if address = 0xFF16 then some bus
  else if address = 0xFF17 then some bus
  else if address = 0xFF18 then some bus
  else if address = 0xFF19 then some bus
  else if address = 0xFF1A then some bus
  else if address = 0xFF1B then some bus
  else if address = 0xFF1C then some bus
  else if address = 0xFF1D then some bus
  else if address = 0xFF1E then some bus
  else if address = 0xFF20 then some bus
  else if address = 0xFF21 then some bus
  else if address = 0xFF22 then some bus
  else if address = 0xFF23 then some bus
  else if address = 0xFF24 then some bus
  else if address = 0xFF25 then some bus
  else if address = 0xFF26 then some bus
  else if 0xFF30 ≤ address ∧ address ≤ 0xFF3F then some bus
  else if address = 0xFF40 then
    some { bus with gpu :=
      { bus.gpu with
          lcd_display_enabled := (byte >>> 7) = 1
          window_tile_map :=
            if ((byte >>> 6) &&& 0b1) = 1 then TileMap.Ox9C00 else TileMap.Ox9800
          window_display_enabled := ((byte >>> 5) &&& 0b1) = 1
          background_window_tile_data :=
            if ((byte >>> 4) &&& 0b1) = 1 then TileData.Ox8000 else TileData.Ox8800
          background_tile_map :=
            if ((byte >>> 3) &&& 0b1) = 1 then TileMap.Ox9C00 else TileMap.Ox9800
          obj_size :=
            if ((byte >>> 2) &&& 0b1) = 1 then ObjSize.Size8x16 else ObjSize.Size8x8
          obj_display_enable := ((byte >>> 1) &&& 0b1) = 1
          background_display_enabled := (byte &&& 0b1) = 1 } }
  else if address = 0xFF41 then
    some { bus with gpu :=
      { bus.gpu with
          lyc_interrupt_enabled := ((byte >>> 6) &&& 0b1) = 1
          oam_interrupt_enabled := ((byte >>> 5) &&& 0b1) = 1
          vblank_interrupt_enabled := ((byte >>> 4) &&& 0b1) = 1
          hblank_interrupt_enabled := ((byte >>> 3) &&& 0b1) = 1 } }
  else if address = 0xFF42 then
    some { bus with gpu := { bus.gpu with scroll_y := byte } }
  else if address = 0xFF43 then
    some { bus with gpu := { bus.gpu with scroll_x := byte } }
  else if address = 0xFF45 then
    some { bus with gpu := { bus.gpu with lcd_y_compare := byte } }
  else if address = 0xFF46 then some bus
  else if address = 0xFF47 then
    (Palette.from_byte byte).map fun p =>
      { bus with gpu := { bus.gpu with background_window_palette := p } }
  else if address = 0xFF48 then
    (Palette.from_byte byte).map fun p =>
      { bus with gpu := { bus.gpu with obj_0_palette := p } }
  else if address = 0xFF49 then
    (Palette.from_byte byte).map fun p =>
      { bus with gpu := { bus.gpu with obj_1_palette := p } }
  else if address = 0xFF4A then
    some { bus with gpu := { bus.gpu with window_y := byte } }
  else if address = 0xFF4B then
    some { bus with gpu := { bus.gpu with window_x := byte } }
  else if address = 0xFF4D then some bus
  else if address = 0xFF4F then some bus
  else if address = 0xFF50 then some { bus with boot_rom := none }
  else if address = 0xFF68 then some bus
  else if address = 0xFF69 then some bus
  else if address = 0xFF7F then some bus
  else none

/-- MemoryBus::read_byte (memory_bus.rs lines 237-267), with the match
arms embedded as a range chain in source order.  The boot overlay wins
over the fixed ROM bank for 0x0000-0x00FF while active.  An address that
no arm covers aborts the process (none). -/
def MemoryBus.read_byte (bus : MemoryBus) (address : Nat) : Option Nat :=
  if address ≤ 0xFF then
    match bus.boot_rom with
    | some boot_rom => some (boot_rom address)
    | none => some (bus.rom_bank address)
  else if address ≤ 0x3FFF then some (bus.rom_bank address)
  else if address ≤ 0x7FFF then some (bus.switchable_rom_bank (address - 0x4000))
  else if address ≤ 0x9FFF then some (bus.gpu.video_ram (address - 0x8000))
  else if address ≤ 0xBFFF then some (bus.external_ram (address - 0xA000))
  else if address ≤ 0xDFFF then some (bus.working_ram (address - 0xC000))
  else if address ≤ 0xFDFF then some (bus.working_ram (address - 0xE000))
  else if address ≤ 0xFE9F then some (bus.gpu.oam (address - 0xFE00))
  else if 0xFF00 ≤ address ∧ address ≤ 0xFF7F then bus.read_from_io address
  else if 0xFF80 ≤ address ∧ address ≤ 0xFFFE then some (bus.high_ram (address - 0xFF80))
  else if address = 0xFFFF then some bus.interrupts_enabled.to_byte
  else none

/-- MemoryBus::write_byte (memory_bus.rs lines 269-306), with the match
arms embedded as a range chain in source order.  ROM-range writes are
STORED into the rom_bank / switchable_rom_bank arrays.  The source has a
degenerate arm covering only 0xFF00 before the HRAM arm and the full IO
arm after it; both route to write_to_io, which the chain order
preserves.  Writes into 0xFEA0-0xFEFF are dropped; an address that no
arm covers aborts the process (none). -/
def MemoryBus.write_byte (bus : MemoryBus) (address byte : Nat) : Option MemoryBus :=
  if address ≤ 0x3FFF then
    some { bus with rom_bank := updf bus.rom_bank address byte }
  else if address ≤ 0x7FFF then
    some { bus with switchable_rom_bank := updf bus.switchable_rom_bank (address - 0x4000) byte }
  else if address ≤ 0x9FFF then
    some { bus with gpu := bus.gpu.write_vram (address - 0x8000) byte }
  else if address ≤ 0xBFFF then
    some { bus with external_ram := updf bus.external_ram (address - 0xA000) byte }
  else if address ≤ 0xDFFF then
    some { bus with working_ram := updf bus.working_ram (address - 0xC000) byte }
  else if address ≤ 0xFDFF then
    some { bus with working_ram := updf bus.working_ram (address - 0xE000) byte }
  else if address ≤ 0xFE9F then
    some { bus with gpu := bus.gpu.write_oam (address - 0xFE00) byte }
  else if address = 0xFF00 then bus.write_to_io address byte
  else if 0xFF80 ≤ address ∧ address ≤ 0xFFFE then
    some { bus with high_ram := updf bus.high_ram (address - 0xFF80) byte }
  else if 0xFF00 ≤ address ∧ address ≤ 0xFF7F then bus.write_to_io address byte
  else if 0xFEA0 ≤ address ∧ address ≤ 0xFEFF then some bus
  else if address = 0xFFFF then
    some { bus with interrupts_enabled := Interrupts.from_byte byte }
  else none


/-! ## src/src/cpu/mod.rs -/

/-- CPU struct (cpu/mod.rs lines 18-26). -/
structure CPU where
  is_halted : Bool
  interrupt_enabled : Bool
  pc : Nat
  sp : Nat
  registers : Registers
  bus : MemoryBus

/-- CPU::new (cpu/mod.rs lines 29-38). -/
def CPU.new (boot_room : Option (Nat → Nat)) (game_rom : Nat → Nat) : CPU :=
  { is_halted := false
    interrupt_enabled := true
    bus := MemoryBus.new boot_room game_rom
    pc := 0
    sp := 0
    registers := Registers.new }

/-- CPU::push (cpu/mod.rs lines 173-178): SP is decremented (u16
wrapping) before each byte store; high byte first, then low byte. -/
def CPU.push (cpu : CPU) (value : Nat) : Option CPU := do
  let sp1 := (cpu.sp + 65535) % 65536
  let bus1 ← cpu.bus.write_byte sp1 ((value &&& 0xFF00) >>> 8)
  let sp2 := (sp1 + 65535) % 65536
  let bus2 ← bus1.write_byte sp2 (value &&& 0xFF)
  return { cpu with sp := sp2, bus := bus2 }

/-- CPU::pop (cpu/mod.rs lines 180-186): low byte read at SP, high byte
at SP+1, SP incremented twice (u16 wrapping). -/
def CPU.pop (cpu : CPU) : Option (CPU × Nat) := do
  let lsb ← cpu.bus.read_byte cpu.sp
  let sp1 := (cpu.sp + 1) % 65536
  let msb ← cpu.bus.read_byte sp1
  let sp2 := (sp1 + 1) % 65536
  return ({ cpu with sp := sp2 }, (msb <<< 8) ||| lsb)

/-- CPU::interrupt (cpu/mod.rs lines 136-141): clears IME, pushes the
current PC, jumps to the vector, and ticks the bus by 12 cycles. -/
def CPU.interrupt (cpu : CPU) (location : InterruptLocation) : Option CPU := do
  let cpu := { cpu with interrupt_enabled := false }
  let cpu ← cpu.push cpu.pc
  let cpu := { cpu with pc := location.addr }
  return { cpu with bus := cpu.bus.step 12 }

/-- CPU::add_hl (cpu/mod.rs lines 1292-1302): 16-bit add of the operand
into HL (u16 overflowing_add: result modulo 65536, carry when the true
sum reaches 65536).  The source masks both operands with
CARRY_MASK = 0b111_1111_1111 (0x7FF, eleven one bits) for the
half-carry test.  The zero flag is not touched.  Returns the updated CPU
and the result (the caller stores it into HL). -/
def CPU.add_hl (cpu : CPU) (value : Nat) : CPU × Nat :=
  let hl := cpu.registers.get_hl
  let result := (hl + value) % 65536
  let did_overflow := decide (hl + value ≥ 65536)
  let f := { cpu.registers.f with
    carry := did_overflow
    subtract := false
    half_carry := decide ((value &&& 0x7FF) + (hl &&& 0x7FF) > 0x7FF) }
  ({ cpu with registers := { cpu.registers with f := f } }, result)

/-- The arms of CPU::execute needed by the claims of this development
(cpu/mod.rs lines 206-232): NOP, HALT, EI, DI, RETI.  Each returns the
updated CPU together with (next_pc, cycles), exactly as the Rust arms
do.  The remaining roughly two hundred opcode arms of CPU::execute are
not exercised by any claim and are left out of the model; evaluating one
of them yields none, and no theorem below depends on that none.  (The
cpu/mod.rs snapshot also has a STOP arm, but the Instruction enum of
this instruction.rs snapshot has no STOP variant, so that arm cannot be
typed against it.) -/
def CPU.execute (cpu : CPU) (instruction : Instruction) : Option (CPU × Nat × Nat) :=
  match instruction with
  | .NOP => some (cpu, (cpu.pc + 1) % 65536, 4)
  | .HALT => some ({ cpu with is_halted := true }, (cpu.pc + 1) % 65536, 4)
  | .EI => some ({ cpu with interrupt_enabled := true }, (cpu.pc + 1) % 65536, 4)
  | .DI => some ({ cpu with interrupt_enabled := false }, (cpu.pc + 1) % 65536, 4)
  | .RETI =>
      (cpu.pop).map fun r => ({ r.1 with interrupt_enabled := true }, r.2, 16)
  | _ => none

/-- The interrupt service block of CPU::step (cpu/mod.rs lines 89-115).
The IME guard is evaluated ONCE; inside it the V-blank, LCD and Timer
pairs are examined by three INDEPENDENT if statements in that order,
each clearing its IF bit and entering its vector via CPU::interrupt
(which itself ticks the bus by 12).  Serial and Joypad are never
examined.  Returns the updated CPU and how many vectors were entered;
the caller adds 12 returned cycles when that count is nonzero. -/
def CPU.interrupt_dispatch (cpu : CPU) : Option (CPU × Nat) :=
  if cpu.interrupt_enabled then do
    let s1 ←
      if cpu.bus.interrupts_enabled.vertical_blank_interrupt &&
         cpu.bus.interrupt_flags.vertical_blank_interrupt then
        let cpu := { cpu with bus := { cpu.bus with interrupt_flags :=
          { cpu.bus.interrupt_flags with vertical_blank_interrupt := false } } }
        (cpu.interrupt InterruptLocation.VBlank).map fun c => (c, 1)
      else some (cpu, 0)
    let s2 ←
      if s1.1.bus.interrupts_enabled.lcd_c_interrupt &&
         s1.1.bus.interrupt_flags.lcd_c_interrupt then
        let cpu := { s1.1 with bus := { s1.1.bus with interrupt_flags :=
          { s1.1.bus.interrupt_flags with lcd_c_interrupt := false } } }
        (cpu.interrupt InterruptLocation.LCD).map fun c => (c, s1.2 + 1)
      else some s1
    let s3 ←
      if s2.1.bus.interrupts_enabled.timer_interrupt &&
         s2.1.bus.interrupt_flags.timer_interrupt then
        let cpu := { s2.1 with bus := { s2.1.bus with interrupt_flags :=
          { s2.1.bus.interrupt_flags with timer_interrupt := false } } }
        (cpu.interrupt InterruptLocation.Timer).map fun c => (c, s2.2 + 1)
      else some s2
    return s3
  else some (cpu, 0)

/-- The tail of CPU::step after the instruction has executed
(cpu/mod.rs lines 81-117): tick the bus by the instruction cycles; wake
from HALT when some enabled interrupt is pending; advance PC only when
not halted; run the interrupt service block; add 12 cycles once when at
least one vector was entered.  Returns (cpu, cycles, vectors entered). -/
def CPU.step_tail (cpu : CPU) (next_pc cycles : Nat) : Option (CPU × Nat × Nat) := do
  let cpu := { cpu with bus := cpu.bus.step cycles }
  let cpu := if cpu.bus.interrupted then { cpu with is_halted := false } else cpu
  let cpu := if !cpu.is_halted then { cpu with pc := next_pc } else cpu
  let s ← cpu.interrupt_dispatch
  return (s.1, if s.2 ≠ 0 then cycles + 12 else cycles, s.2)

/-- CPU::step (cpu/mod.rs lines 61-118) instrumented with the number of
interrupt vectors entered: fetch the opcode at PC (reading a second byte
after the 0xCB prefix), decode it (an undecodable byte aborts the
process: none), execute it, then run the common step tail. -/
def CPU.step_with_count (cpu : CPU) : Option (CPU × Nat × Nat) := do
  let b ← cpu.bus.read_byte cpu.pc
  let prefixed := b == 0xCB
  let instruction_byte ← if prefixed then cpu.bus.read_byte ((cpu.pc + 1) % 65536) else pure b
  let instruction ← Instruction.from_byte instruction_byte prefixed
  let r ← cpu.execute instruction
  r.1.step_tail r.2.1 r.2.2

/-- CPU::step (cpu/mod.rs lines 61-118): the observable result, the new
CPU state and the cycle count. -/
def CPU.step (cpu : CPU) : Option (CPU × Nat) :=
  (cpu.step_with_count).map fun r => (r.1, r.2.1)


/-! ## Reduced pixel-pipeline state for the frame-cadence analysis

GPU.step with the LCD enabled reads and writes only the three fields
lcd_mode, lcd_y_coordinate and cycles.  GpuFsm packs exactly those
fields, and GpuFsm.step is DEFINED by delegation to GPU.step (embedding
the reduced state into a GPU with the LCD enabled), so the frame-cadence
computations below run the real embedded step function. -/

/-- The three GPU fields that drive the scanline mode machine. -/
structure GpuFsm where
  lcd_mode : Mode
  lcd_y_coordinate : Nat
  cycles : Nat
deriving DecidableEq

/-- Projection of a GPU onto its mode-machine fields. -/
def GpuFsm.ofGPU (g : GPU) : GpuFsm :=
  { lcd_mode := g.lcd_mode, lcd_y_coordinate := g.lcd_y_coordinate, cycles := g.cycles }

/-- Embedding of the reduced state into a GPU with the LCD enabled. -/
def GpuFsm.toGPU (s : GpuFsm) : GPU :=
  { GPU.new with
      lcd_display_enabled := true
      lcd_mode := s.lcd_mode
      lcd_y_coordinate := s.lcd_y_coordinate
      cycles := s.cycles }

/-- One cycle of the real GPU.step on the reduced state. -/
def GpuFsm.step (s : GpuFsm) : GpuFsm :=
  GpuFsm.ofGPU ((GpuFsm.toGPU s).step 1)

/-- Frame-scan accumulator: the reduced GPU state, how many times LY has
wrapped from 153 back to 0, and a running check that LY stays within
0-153 and only ever holds, increments by one, or wraps. -/
structure FrameScan where
  fsm : GpuFsm
  wraps : Nat
  ok : Bool
deriving DecidableEq

/-- Advance the frame scan by one cycle of GPU.step.  The closing match
only forces the two accumulators into constructor form, so that
evaluating a long run does not pile up deferred arithmetic. -/
def FrameScan.next (s : FrameScan) : FrameScan :=
  let g2 := s.fsm.step
  let w2 := s.wraps +
    (if s.fsm.lcd_y_coordinate = 153 ∧ g2.lcd_y_coordinate = 0 then 1 else 0)
  let ok2 := s.ok && decide (g2.lcd_y_coordinate ≤ 153) &&
    decide (g2.lcd_y_coordinate = s.fsm.lcd_y_coordinate ∨
      g2.lcd_y_coordinate = s.fsm.lcd_y_coordinate + 1 ∨
      (s.fsm.lcd_y_coordinate = 153 ∧ g2.lcd_y_coordinate = 0))
  match w2, ok2 with
  | 0, true => ⟨g2, 0, true⟩
  | 0, false => ⟨g2, 0, false⟩
  | n + 1, true => ⟨g2, n + 1, true⟩
  | n + 1, false => ⟨g2, n + 1, false⟩

/-- Advance the frame scan by n cycles (the nested pattern keeps the
accumulator in constructor form, so evaluation runs in constant space). -/
def FrameScan.run : Nat → FrameScan → FrameScan
  | 0, s => s
  | n + 1, ⟨⟨m, ly, cyc⟩, w, ok⟩ => FrameScan.run n (FrameScan.next ⟨⟨m, ly, cyc⟩, w, ok⟩)

/-- The scan state at a frame boundary: start of the OAM scan of line 0. -/
def frame_scan_start : FrameScan :=
  { fsm := { lcd_mode := Mode.OAMAccess, lcd_y_coordinate := 0, cycles := 0 }
    wraps := 0
    ok := true }

/-! ## Concrete states used by the claim theorems -/

/-- The eleven unprefixed opcodes the spec lists as illegal. -/
def illegal_unprefixed_opcodes : List Nat :=
  [0xD3, 0xDB, 0xDD, 0xE3, 0xE4, 0xEB, 0xEC, 0xED, 0xF4, 0xFC, 0xFD]

/-- The full set of bytes on which from_byte_not_prefixed returns None:
the eleven illegal opcodes plus 0xCB (the prefix byte) and 0x10 (STOP,
which this snapshot does not decode: instruction.rs line 1066). -/
def undecoded_unprefixed_opcodes : List Nat :=
  illegal_unprefixed_opcodes ++ [0xCB, 0x10]

/-- A CPU about to execute EI (0xFB at PC=0) with the Timer interrupt
already pending and enabled, IME clear, SP in work RAM; timer inactive
and LCD off so the bus tick leaves the pending flag alone. -/
def cpuC2 : CPU :=
  { is_halted := false
    interrupt_enabled := false
    pc := 0
    sp := 0xC100
    registers := Registers.new
    bus := { MemoryBus.new_empty_memory with
      rom_bank := updf (fun _ => 0) 0 0xFB
      interrupts_enabled := { Interrupts.new with timer_interrupt := true }
      interrupt_flags := { Interrupts.new with timer_interrupt := true } } }

/-- A CPU about to execute NOP (0x00 at PC=0) while, during that step,
the pipeline enters V-blank (H-blank of line 143 with 198 of 200 cycles
spent) and the timer overflows (period 16, 15 cycles spent, counter
255): after the bus tick both the V-blank and Timer interrupts are
pending and enabled with IME set. -/
def cpuC3 : CPU :=
  { is_halted := false
    interrupt_enabled := true
    pc := 0
    sp := 0xC100
    registers := Registers.new
    bus := { MemoryBus.new_empty_memory with
      timer := { frequency := .F262144, cycles := 15, value := 255, modulo := 0, active := true }
      interrupts_enabled := { Interrupts.new with
        vertical_blank_interrupt := true, timer_interrupt := true }
      gpu := { GPU.new with
        lcd_display_enabled := true
        lcd_mode := Mode.HBlank
        lcd_y_coordinate := 143
        cycles := 198 } } }

/-- A CPU state entering the interrupt service block with IME set and
both the V-blank and Timer pairs pending and enabled. -/
def cpuC3d : CPU :=
  { is_halted := false
    interrupt_enabled := true
    pc := 0x1234
    sp := 0xC100
    registers := Registers.new
    bus := { MemoryBus.new_empty_memory with
      interrupts_enabled := { Interrupts.new with
        vertical_blank_interrupt := true, timer_interrupt := true }
      interrupt_flags := { Interrupts.new with
        vertical_blank_interrupt := true, timer_interrupt := true } } }

/-- A CPU state entering the interrupt service block with IME set and
ONLY the Serial pair pending and enabled. -/
def cpuC3s : CPU :=
  { is_halted := false
    interrupt_enabled := true
    pc := 0x1234
    sp := 0xC100
    registers := Registers.new
    bus := { MemoryBus.new_empty_memory with
      interrupts_enabled := { Interrupts.new with serial_transfer_interrupt := true }
      interrupt_flags := { Interrupts.new with serial_transfer_interrupt := true } } }

/-- A halted CPU with the Timer FLAG set but its ENABLE bit clear (IME
set, so dispatch is not the obstacle); NOP at PC=0. -/
def cpuC4a : CPU :=
  { is_halted := true
    interrupt_enabled := true
    pc := 0
    sp := 0xC100
    registers := Registers.new
    bus := { MemoryBus.new_empty_memory with
      interrupt_flags := { Interrupts.new with timer_interrupt := true } } }

/-- A halted CPU with the Timer pair fully set (flag and enable) but IME
CLEAR; NOP at PC=0. -/
def cpuC4b : CPU :=
  { is_halted := true
    interrupt_enabled := false
    pc := 0
    sp := 0xC100
    registers := Registers.new
    bus := { MemoryBus.new_empty_memory with
      interrupts_enabled := { Interrupts.new with timer_interrupt := true }
      interrupt_flags := { Interrupts.new with timer_interrupt := true } } }

/-- The timer state of the claim C5 scenario taken literally: modulo
128, counter 255, frequency F4096 (period 1024), active, accumulator 0. -/
def busC5a : MemoryBus :=
  { MemoryBus.new_empty_memory with
    timer := { frequency := .F4096, cycles := 0, value := 255, modulo := 128, active := true } }

/-- The same timer state with one cycle already in the accumulator, so
that step(1024) makes the accumulator strictly exceed the period. -/
def busC5b : MemoryBus :=
  { MemoryBus.new_empty_memory with
    timer := { frequency := .F4096, cycles := 1, value := 255, modulo := 128, active := true } }

/-- A CPU whose HL is 0x0800, for the ADD HL half-carry analysis. -/
def cpuC8 : CPU :=
  { is_halted := false
    interrupt_enabled := true
    pc := 0
    sp := 0
    registers := { Registers.new with h := 0x08, l := 0x00 }
    bus := MemoryBus.new_empty_memory }


/-! ## Arithmetic helper lemmas -/

/-- Bitwise and commutes with division by a power of two. -/
theorem and_div_pow (a b n : Nat) : (a &&& b) / 2 ^ n = (a / 2 ^ n) &&& (b / 2 ^ n) := by
  induction n with
  | zero => simp
  | succ n ih =>
      rw [pow_succ, ← Nat.div_div_eq_div_mul, ih, Nat.and_div_two,
        Nat.div_div_eq_div_mul, Nat.div_div_eq_div_mul]

/-- Bitwise or commutes with division by a power of two. -/
theorem or_div_pow (a b n : Nat) : (a ||| b) / 2 ^ n = (a / 2 ^ n) ||| (b / 2 ^ n) := by
  induction n with
  | zero => simp
  | succ n ih =>
      rw [pow_succ, ← Nat.div_div_eq_div_mul, ih, Nat.or_div_two,
        Nat.div_div_eq_div_mul, Nat.div_div_eq_div_mul]

/-- Masking with 0xFF is reduction modulo 256. -/
theorem and_mod_256 (x : Nat) : x &&& 0xFF = x % 256 := by
  have h := Nat.and_pow_two_sub_one_eq_mod x 8
  norm_num at h
  exact h

/-- Masking with 0x7FF is reduction modulo 2048. -/
theorem and_mod_2048 (x : Nat) : x &&& 0x7FF = x % 2048 := by
  have h := Nat.and_pow_two_sub_one_eq_mod x 11
  norm_num at h
  exact h

/-- Extracting the high byte of a 16-bit mask-and-shift. -/
theorem and_ff00_shr (x : Nat) : (x &&& 0xFF00) >>> 8 = x / 256 % 256 := by
  rw [Nat.shiftRight_eq_div_pow, and_div_pow]
  norm_num
  rw [and_mod_256]

/-- Recombining a high byte and a low byte with or is plain arithmetic. -/
theorem shl8_or_eq (h b : Nat) (hb : b < 256) : (h <<< 8) ||| b = h * 256 + b := by
  have hmod : ((h <<< 8) ||| b) % 256 = b := by
    rw [← and_mod_256, Nat.and_distrib_right, and_mod_256, and_mod_256,
      Nat.shiftLeft_eq]
    have h1 : h * 2 ^ 8 % 256 = 0 := by
      have h2 : (2 : Nat) ^ 8 = 256 := by norm_num
      rw [h2]
      omega
    rw [h1, Nat.mod_eq_of_lt hb]
    simp
  have hdiv : ((h <<< 8) ||| b) / 256 = h := by
    have h8 := or_div_pow (h <<< 8) b 8
    rw [Nat.shiftLeft_eq] at h8
    rw [Nat.shiftLeft_eq]
    have h2 : (2 : Nat) ^ 8 = 256 := by norm_num
    rw [h2] at h8
    rw [Nat.mul_div_cancel _ (by norm_num : (0:Nat) < 256)] at h8
    rw [Nat.div_eq_of_lt hb] at h8
    simpa using h8
  have := Nat.div_add_mod ((h <<< 8) ||| b) 256
  omega

/-- Unpacking a byte into flags and packing back keeps the high nibble. -/
theorem flags_roundtrip : ∀ b < 256,
    (FlagsRegister.from_byte b).to_byte = b &&& 0xF0 := by
  decide


/-- Round-trip through set_bc and get_bc. -/
theorem get_set_bc_eq (r : Registers) (v : Nat) (hv : v < 65536) :
    (r.set_bc v).get_bc = v := by
  show (((v &&& 0xFF00) >>> 8) <<< 8) ||| (v &&& 0x00FF) = v
  rw [and_ff00_shr, and_mod_256, shl8_or_eq _ _ (Nat.mod_lt _ (by norm_num))]
  omega

/-- Round-trip through set_de and get_de. -/
theorem get_set_de_eq (r : Registers) (v : Nat) (hv : v < 65536) :
    (r.set_de v).get_de = v := by
  show (((v &&& 0xFF00) >>> 8) <<< 8) ||| (v &&& 0x00FF) = v
  rw [and_ff00_shr, and_mod_256, shl8_or_eq _ _ (Nat.mod_lt _ (by norm_num))]
  omega

/-- Round-trip through set_hl and get_hl. -/
theorem get_set_hl_eq (r : Registers) (v : Nat) (hv : v < 65536) :
    (r.set_hl v).get_hl = v := by
  show (((v &&& 0xFF00) >>> 8) <<< 8) ||| (v &&& 0x00FF) = v
  rw [and_ff00_shr, and_mod_256, shl8_or_eq _ _ (Nat.mod_lt _ (by norm_num))]
  omega

/-- Round-trip through set_af and get_af: the low nibble of F is lost. -/
theorem get_set_af_eq (r : Registers) (v : Nat) :
    (r.set_af v).get_af = v &&& 0xFFF0 := by
  show (((v &&& 0xFF00) >>> 8) <<< 8) ||| (FlagsRegister.from_byte (v &&& 0x00FF)).to_byte
      = v &&& 0xFFF0
  rw [flags_roundtrip (v &&& 0x00FF) (by rw [and_mod_256]; exact Nat.mod_lt _ (by norm_num))]
  rw [Nat.and_assoc]
  rw [show (255 : Nat) &&& 240 = 240 from rfl]
  rw [and_ff00_shr]
  have hle : v &&& 0xF0 < 256 := Nat.lt_of_le_of_lt Nat.and_le_right (by norm_num)
  rw [shl8_or_eq _ _ hle]
  have hRdiv : (v &&& 0xFFF0) / 256 = v / 256 % 256 := by
    have h8 := and_div_pow v 0xFFF0 8
    norm_num at h8
    rw [h8, and_mod_256]
  have hRmod : (v &&& 0xFFF0) % 256 = v &&& 0xF0 := by
    rw [← and_mod_256, Nat.and_assoc]
    rw [show (65520 : Nat) &&& 255 = 240 from rfl]
  have := Nat.div_add_mod (v &&& 0xFFF0) 256
  omega

/-- Claim C9: unpacking a byte to flags and packing back yields the byte
with its low nibble cleared; the BC, DE and HL pair setters round-trip
exactly on 16-bit values; the AF pair round-trips up to masking with
0xFFF0. -/
theorem C9_roundtrips :
    (∀ b : Nat, b < 256 → (FlagsRegister.from_byte b).to_byte = b &&& 0xF0) ∧
    (∀ (r : Registers) (v : Nat), v < 65536 →
      (r.set_bc v).get_bc = v ∧ (r.set_de v).get_de = v ∧ (r.set_hl v).get_hl = v) ∧
    (∀ (r : Registers) (v : Nat), v < 65536 → (r.set_af v).get_af = v &&& 0xFFF0) :=
  ⟨flags_roundtrip,
   fun r v hv => ⟨get_set_bc_eq r v hv, get_set_de_eq r v hv, get_set_hl_eq r v hv⟩,
   fun r v _ => get_set_af_eq r v⟩

/-- Claim C9 witness: the round-trips evaluated at concrete inputs. -/
theorem C9_roundtrips_witness :
    (FlagsRegister.from_byte 0xAB).to_byte = 0xAB &&& 0xF0 ∧
    (Registers.new.set_bc 0xBEEF).get_bc = 0xBEEF ∧
    (Registers.new.set_af 0xBEEF).get_af = 0xBEEF &&& 0xFFF0 :=
  ⟨C9_roundtrips.1 0xAB (by norm_num),
   (C9_roundtrips.2.1 Registers.new 0xBEEF (by norm_num)).1,
   C9_roundtrips.2.2 Registers.new 0xBEEF (by norm_num)⟩

/-- Claim C1 (amended): the prefixed decoder is total over 0x00-0xFF; the
unprefixed decoder is defined exactly on the bytes outside the eleven
illegal opcodes PLUS 0xCB (the prefix byte) and 0x10 (STOP, which this
snapshot does not decode). -/
theorem C1_decoder_totality :
    (∀ b : Nat, b < 256 → (Instruction.fromBytePrefixed b).isSome = true) ∧
    (∀ b : Nat, b < 256 →
      ((Instruction.fromByteNotPrefixed b).isSome = true ↔
        b ∉ undecoded_unprefixed_opcodes)) := by
  constructor
  · decide
  · decide

/-- Claim C1 witness: the decoders evaluated at the concrete byte 0x31. -/
theorem C1_decoder_totality_witness :
    (Instruction.fromBytePrefixed 0x31).isSome = true ∧
    ((Instruction.fromByteNotPrefixed 0x31).isSome = true ↔
      0x31 ∉ undecoded_unprefixed_opcodes) :=
  ⟨C1_decoder_totality.1 0x31 (by norm_num), C1_decoder_totality.2 0x31 (by norm_num)⟩

/-- Claim C1 counterexample: 0x10 and 0xCB are not among the eleven
illegal opcodes, yet the unprefixed decoder returns None on both; in
particular from_byte(0x10, false) does not yield a STOP instruction. -/
theorem C1_counterexample :
    Instruction.from_byte 0x10 false = none ∧
    Instruction.from_byte 0xCB false = none ∧
    0x10 ∉ illegal_unprefixed_opcodes ∧
    0xCB ∉ illegal_unprefixed_opcodes := by
  decide

/-- Claim C8 (amended): ADD HL leaves Z unchanged, clears N, sets C
exactly on a carry out of bit 15, and sets H exactly on a carry out of
bit 10 (the source masks both operands with 0x7FF, eleven bits, so the
half-carry boundary sits one bit lower than the claimed bit 11). -/
theorem C8_add_hl_flags (cpu : CPU) (value : Nat) :
    ((cpu.add_hl value).1.registers.f.zero = cpu.registers.f.zero) ∧
    ((cpu.add_hl value).1.registers.f.subtract = false) ∧
    ((cpu.add_hl value).1.registers.f.carry = true ↔
      cpu.registers.get_hl + value ≥ 65536) ∧
    ((cpu.add_hl value).1.registers.f.half_carry = true ↔
      cpu.registers.get_hl % 2048 + value % 2048 ≥ 2048) ∧
    ((cpu.add_hl value).2 = (cpu.registers.get_hl + value) % 65536) := by
  refine ⟨rfl, rfl, ?_, ?_, rfl⟩
  · show decide (cpu.registers.get_hl + value ≥ 65536) = true ↔ _
    rw [decide_eq_true_eq]
  · show decide ((value &&& 0x7FF) + (cpu.registers.get_hl &&& 0x7FF) > 0x7FF) = true ↔ _
    rw [decide_eq_true_eq, and_mod_2048, and_mod_2048]
    omega

/-- Claim C8 counterexample: with HL = 0x0800 and operand 0x0800 there
IS a carry out of bit 11 (0x800 + 0x800 = 0x1000), yet add_hl computes
half_carry = false, because the source masks with 0x7FF instead of
0xFFF. -/
theorem C8_counterexample :
    (cpuC8.add_hl 0x0800).1.registers.f.half_carry = false ∧
    cpuC8.registers.get_hl % 4096 + 0x0800 % 4096 ≥ 4096 := by
  constructor
  · rfl
  · decide

/-- Claim C10: writing any byte to the serial data register 0xFF01 only
sets the Serial bit of IF; the written byte is discarded and no other
bus state changes. -/
theorem C10_serial_write (bus : MemoryBus) (byte : Nat) :
    bus.write_byte 0xFF01 byte =
      some { bus with interrupt_flags :=
        { bus.interrupt_flags with serial_transfer_interrupt := true } } := by
  rfl


/-- Claim C5 (amended): while inactive the timer ignores the step; while
active the accumulator grows, and only when it STRICTLY exceeds the
period does the counter tick, at most once per call, with the
accumulator reduced modulo the period; a tick of a 255 counter reloads
it from modulo and reports overflow.  The concrete scenario of the
claim therefore needs one cycle already in the accumulator: from
accumulator 1, counter 255, modulo 128, period 1024, stepping the bus
by 1024 leaves counter 128 and asserts the Timer bit of IF. -/
theorem C5_timer_step :
    (∀ (t : Timer) (c : Nat), t.active = false → t.step c = (t, false)) ∧
    (∀ (t : Timer) (c : Nat), t.active = true →
      t.cycles + c ≤ t.frequency.in_ticks →
      t.step c = ({ t with cycles := t.cycles + c }, false)) ∧
    (∀ (t : Timer) (c : Nat), t.active = true →
      t.cycles + c > t.frequency.in_ticks → t.value < 255 →
      t.step c = ({ t with
        cycles := ((t.cycles + c) % t.frequency.in_ticks)
        value := t.value + 1 }, false)) ∧
    (∀ (t : Timer) (c : Nat), t.active = true →
      t.cycles + c > t.frequency.in_ticks → t.value = 255 →
      t.step c = ({ t with
        cycles := ((t.cycles + c) % t.frequency.in_ticks)
        value := t.modulo }, true)) ∧
    ((busC5b.step 1024).timer.value = 128 ∧
      (busC5b.step 1024).interrupt_flags.timer_interrupt = true) := by
  refine ⟨?_, ?_, ?_, ?_, rfl, rfl⟩
  · intro t c h
    simp [Timer.step, h]
  · intro t c h1 h2
    simp only [Timer.step, h1, Bool.not_true, Bool.false_eq_true, if_false]
    rw [if_neg (by omega)]
  · intro t c h1 h2 h3
    simp only [Timer.step, h1, Bool.not_true, Bool.false_eq_true, if_false]
    rw [if_pos h2]
    have hd : decide (t.value + 1 ≥ 256) = false := by
      simp only [decide_eq_false_iff_not]
      omega
    rw [hd]
    simp only [Bool.false_eq_true, if_false]
    rw [Nat.mod_eq_of_lt (show t.value + 1 < 256 by omega)]
  · intro t c h1 h2 h3
    simp only [Timer.step, h1, Bool.not_true, Bool.false_eq_true, if_false]
    rw [if_pos h2]
    have hd : decide (t.value + 1 ≥ 256) = true := by
      simp only [decide_eq_true_eq]
      omega
    rw [hd]
    simp

/-- Claim C5 witness: the amended timer equations evaluated at concrete
timers. -/
theorem C5_timer_step_witness :
    Timer.new.step 7 = (Timer.new, false) ∧
    busC5b.timer.step 1024 =
      ({ busC5b.timer with cycles := 1, value := 128 }, true) := by
  constructor
  · exact C5_timer_step.1 Timer.new 7 rfl
  · have h := C5_timer_step.2.2.2.1 busC5b.timer 1024 rfl (by decide) rfl
    simpa using h

/-- Claim C5 counterexample: the scenario exactly as the claim states it
(modulo 128, counter 255, period 1024, active, fresh accumulator):
stepping by 1024 does NOT tick, because the accumulator reaches the
period without strictly exceeding it; the counter stays 255 and the
Timer bit of IF stays clear. -/
theorem C5_counterexample :
    (busC5a.step 1024).timer.value = 255 ∧
    (busC5a.step 1024).timer.cycles = 1024 ∧
    (busC5a.step 1024).interrupt_flags.timer_interrupt = false :=
  ⟨rfl, rfl, rfl⟩

/-- Reads of 0x0000-0x00FF with the boot overlay inactive come from the
fixed ROM bank. -/
theorem read_byte_boot_none (bus : MemoryBus) (addr : Nat)
    (hb : addr ≤ 0xFF) (hboot : bus.boot_rom = none) :
    bus.read_byte addr = some (bus.rom_bank addr) := by
  simp only [MemoryBus.read_byte]
  rw [if_pos hb, hboot]

/-- Reads of 0x0100-0x3FFF come from the fixed ROM bank. -/
theorem read_byte_rom (bus : MemoryBus) (addr : Nat)
    (hb : ¬ addr ≤ 0xFF) (h : addr ≤ 0x3FFF) :
    bus.read_byte addr = some (bus.rom_bank addr) := by
  simp only [MemoryBus.read_byte]
  rw [if_neg hb, if_pos h]

/-- Reads of 0x4000-0x7FFF come from the switchable ROM bank. -/
theorem read_byte_switchable (bus : MemoryBus) (addr : Nat)
    (hlow : ¬ addr ≤ 0x3FFF) (h : addr ≤ 0x7FFF) :
    bus.read_byte addr = some (bus.switchable_rom_bank (addr - 0x4000)) := by
  have hb : ¬ addr ≤ 0xFF := by omega
  simp only [MemoryBus.read_byte]
  rw [if_neg hb, if_neg hlow, if_pos h]

/-- Writes to 0x0000-0x3FFF are stored into the fixed ROM bank. -/
theorem write_byte_rom (bus : MemoryBus) (addr byte : Nat) (h : addr ≤ 0x3FFF) :
    bus.write_byte addr byte =
      some { bus with rom_bank := updf bus.rom_bank addr byte } := by
  simp only [MemoryBus.write_byte]
  rw [if_pos h]

/-- Writes to 0x4000-0x7FFF are stored into the switchable ROM bank. -/
theorem write_byte_switchable (bus : MemoryBus) (addr byte : Nat)
    (hlow : ¬ addr ≤ 0x3FFF) (h : addr ≤ 0x7FFF) :
    bus.write_byte addr byte =
      some { bus with
        switchable_rom_bank := updf bus.switchable_rom_bank (addr - 0x4000) byte } := by
  simp only [MemoryBus.write_byte]
  rw [if_neg hlow, if_pos h]

/-- Claim C7 (amended): every write into 0x0000-0x7FFF is accepted AND
stored into the ROM bank arrays; a following read of the same address
returns the written byte (for 0x0000-0x00FF this is stated with the
boot overlay inactive, since reads there prefer the boot image). -/
theorem C7_rom_write_stored (bus : MemoryBus) (addr byte : Nat)
    (h1 : addr ≤ 0x7FFF) (h2 : bus.boot_rom = none ∨ 0x100 ≤ addr) :
    ∃ bus2, bus.write_byte addr byte = some bus2 ∧ bus2.read_byte addr = some byte := by
  by_cases hlow : addr ≤ 0x3FFF
  · refine ⟨_, write_byte_rom bus addr byte hlow, ?_⟩
    by_cases hb : addr ≤ 0xFF
    · rcases h2 with h2 | h2
      · rw [read_byte_boot_none { bus with rom_bank := updf bus.rom_bank addr byte } addr hb h2]
        simp [updf]
      · omega
    · rw [read_byte_rom _ addr hb hlow]
      simp [updf]
  · refine ⟨_, write_byte_switchable bus addr byte hlow h1, ?_⟩
    rw [read_byte_switchable _ addr hlow h1]
    simp [updf]

/-- Claim C7 witness: the amended statement evaluated at a concrete bus
and address. -/
theorem C7_rom_write_stored_witness :
    ∃ bus2, MemoryBus.new_empty_memory.write_byte 0x1234 0xAB = some bus2 ∧
      bus2.read_byte 0x1234 = some 0xAB :=
  C7_rom_write_stored MemoryBus.new_empty_memory 0x1234 0xAB (by norm_num) (Or.inl rfl)

/-- Claim C7 counterexample: a ROM write IS observable: address 0x1234
reads 0x00 before the write and 0xAB after it, so the write does not
leave the observable state unchanged. -/
theorem C7_counterexample :
    MemoryBus.new_empty_memory.read_byte 0x1234 = some 0x00 ∧
    (MemoryBus.new_empty_memory.write_byte 0x1234 0xAB).map
      (fun b2 => b2.read_byte 0x1234) = some (some 0xAB) :=
  ⟨rfl, rfl⟩


/-- Claim C2 (amended): EI sets IME during its own execute arm and DI
clears IME during its own arm, both effective immediately; consequently
an interrupt already pending and enabled when EI executes is dispatched
at the end of THAT step, and no dispatch can follow a DI step, because
the service block does nothing when IME is clear. -/
theorem C2_ei_di :
    (∀ cpu : CPU, cpu.execute Instruction.EI =
      some ({ cpu with interrupt_enabled := true }, (cpu.pc + 1) % 65536, 4)) ∧
    (∀ cpu : CPU, cpu.execute Instruction.DI =
      some ({ cpu with interrupt_enabled := false }, (cpu.pc + 1) % 65536, 4)) ∧
    (∀ cpu : CPU, cpu.interrupt_enabled = false →
      cpu.interrupt_dispatch = some (cpu, 0)) ∧
    ((cpuC2.step_with_count).map
        (fun r => (r.1.pc, r.1.interrupt_enabled, r.2.1, r.2.2)) =
      some (0x50, false, 16, 1)) := by
  refine ⟨fun cpu => rfl, fun cpu => rfl, ?_, rfl⟩
  intro cpu h
  simp [CPU.interrupt_dispatch, h]

/-- Claim C2 witness: the IME-clear service block evaluated at the
concrete state cpuC2. -/
theorem C2_ei_di_witness :
    cpuC2.interrupt_dispatch = some (cpuC2, 0) :=
  C2_ei_di.2.2.1 cpuC2 rfl

/-- Claim C2 counterexample: EI at PC=0 with the Timer interrupt pending
and enabled and IME initially clear: the step that executes EI already
dispatches the interrupt (PC ends at the Timer vector 0x50, the IF bit
is consumed, SP has taken the pushed return address, 12 extra cycles are
charged), so EI does not make IME effective only after the next
instruction. -/
theorem C2_counterexample :
    (cpuC2.step_with_count).map
        (fun r => (r.1.pc, r.1.bus.interrupt_flags.timer_interrupt, r.1.sp, r.2.1)) =
      some (0x50, false, 0xC0FE, 16) := by
  rfl

/-- The pairwise IE-and-IF test equals a nonzero test on the and of the
packed bytes. -/
theorem interrupts_pairs_eq_byte_and (ie fl : Interrupts) :
    ((ie.vertical_blank_interrupt && fl.vertical_blank_interrupt) ||
      (ie.lcd_c_interrupt && fl.lcd_c_interrupt) ||
      (ie.timer_interrupt && fl.timer_interrupt) ||
      (ie.serial_transfer_interrupt && fl.serial_transfer_interrupt) ||
      (ie.control_interrupt && fl.control_interrupt)) =
    ((ie.to_byte &&& fl.to_byte) != 0) := by
  rcases ie with ⟨e1, e2, e3, e4, e5⟩
  rcases fl with ⟨f1, f2, f3, f4, f5⟩
  cases e1 <;> cases e2 <;> cases e3 <;> cases e4 <;> cases e5 <;>
    cases f1 <;> cases f2 <;> cases f3 <;> cases f4 <;> cases f5 <;> rfl

/-- Claim C4 (amended): the HALT wake-up condition is bus.interrupted,
which requires an interrupt with BOTH its IE and IF bits set (the IE and
IF bytes must share a set bit) and ignores IME; while halted the CPU
does not advance PC and the peripherals still tick. -/
theorem C4_halt_wake :
    (∀ bus : MemoryBus, bus.interrupted =
      ((bus.interrupts_enabled.to_byte &&& bus.interrupt_flags.to_byte) != 0)) ∧
    ((cpuC4a.step_with_count).map
        (fun r => (r.1.is_halted, r.1.pc, r.1.bus.divider.value, r.2.2)) =
      some (true, 0, 4, 0)) ∧
    ((cpuC4b.step_with_count).map
        (fun r => (r.1.is_halted, r.1.pc, r.2.2)) = some (false, 1, 0)) := by
  refine ⟨?_, rfl, rfl⟩
  intro bus
  exact interrupts_pairs_eq_byte_and bus.interrupts_enabled bus.interrupt_flags

/-- Claim C4 counterexample: a halted CPU whose Timer FLAG is set while
its Timer ENABLE bit is clear (IME set) stays halted through a step and
PC does not move, so an IF bit alone does not end HALT: the wake-up also
needs the corresponding IE bit. -/
theorem C4_counterexample :
    ((cpuC4a.step_with_count).map (fun r => (r.1.is_halted, r.1.pc)) =
      some (true, 0)) ∧
    cpuC4a.bus.interrupt_flags.timer_interrupt = true ∧
    cpuC4a.bus.interrupts_enabled.timer_interrupt = false :=
  ⟨rfl, rfl, rfl⟩

/-- Claim C3 (amended): the interrupt service block can enter SEVERAL
vectors in one step: with IME set it examines the V-blank, LCD and
Timer pairs in that order with three independent tests, dispatching
every pending and enabled one it still sees, and never examines Serial
or Joypad; a state with V-blank and Timer both pending and enabled
enters both vectors (two stack pushes, PC at 0x50, both flags cleared),
while a pending and enabled Serial interrupt alone dispatches nothing. -/
theorem C3_dispatch :
    (∀ cpu : CPU,
      (cpu.bus.interrupts_enabled.vertical_blank_interrupt &&
        cpu.bus.interrupt_flags.vertical_blank_interrupt) = false →
      (cpu.bus.interrupts_enabled.lcd_c_interrupt &&
        cpu.bus.interrupt_flags.lcd_c_interrupt) = false →
      (cpu.bus.interrupts_enabled.timer_interrupt &&
        cpu.bus.interrupt_flags.timer_interrupt) = false →
      cpu.interrupt_dispatch = some (cpu, 0)) ∧
    (cpuC3s.interrupt_dispatch = some (cpuC3s, 0)) ∧
    ((cpuC3d.interrupt_dispatch).map
        (fun r => (r.1.pc, r.1.sp, r.2,
          r.1.bus.interrupt_flags.vertical_blank_interrupt,
          r.1.bus.interrupt_flags.timer_interrupt)) =
      some (0x50, 0xC0FC, 2, false, false)) := by
  refine ⟨?_, rfl, rfl⟩
  intro cpu h1 h2 h3
  have h1n : ¬(cpu.bus.interrupts_enabled.vertical_blank_interrupt = true ∧
      cpu.bus.interrupt_flags.vertical_blank_interrupt = true) := by
    rw [← Bool.and_eq_true, h1]
    simp
  have h2n : ¬(cpu.bus.interrupts_enabled.lcd_c_interrupt = true ∧
      cpu.bus.interrupt_flags.lcd_c_interrupt = true) := by
    rw [← Bool.and_eq_true, h2]
    simp
  have h3n : ¬(cpu.bus.interrupts_enabled.timer_interrupt = true ∧
      cpu.bus.interrupt_flags.timer_interrupt = true) := by
    rw [← Bool.and_eq_true, h3]
    simp
  by_cases him : cpu.interrupt_enabled
  · simp [CPU.interrupt_dispatch, him, h1n, h2n, h3n]
  · simp [CPU.interrupt_dispatch, him]

/-- Claim C3 witness: the no-pending-pair service block evaluated at the
freshly constructed CPU. -/
theorem C3_dispatch_witness :
    (CPU.new none (fun _ => 0)).interrupt_dispatch =
      some (CPU.new none (fun _ => 0), 0) :=
  C3_dispatch.1 (CPU.new none (fun _ => 0)) rfl rfl rfl

/-- Claim C3 counterexample: one CPU::step that enters TWO interrupt
vectors.  During the NOP at PC=0 the pipeline finishes line 143 (so the
modelled V-blank assertion raises IF bit 0) and the timer overflows
(raising IF bit 2); both are enabled with IME set, and the service block
then dispatches V-blank AND Timer: PC ends at 0x50 after two pushes
(SP drops by 4, and the V-blank vector 0x40 sits on the stack as the
second frames return address), both flags are cleared, and the step
still charges only 4 + 12 cycles. -/
theorem C3_counterexample :
    ((cpuC3.step_with_count).map
        (fun r => (r.1.pc, r.1.sp, r.2.1, r.2.2,
          r.1.bus.interrupt_flags.vertical_blank_interrupt,
          r.1.bus.interrupt_flags.timer_interrupt)) =
      some (0x50, 0xC0FC, 16, 2, false, false)) ∧
    ((cpuC3.step_with_count).map (fun r => r.1.bus.read_byte 0xC0FC) =
      some (some 0x40)) ∧
    ((cpuC3.step_with_count).map (fun r => r.1.bus.read_byte 0xC0FE) =
      some (some 0x01)) :=
  ⟨rfl, rfl, rfl⟩


/-- One enabled GPU.step cycle acts on the three mode-machine fields
exactly as GpuFsm.step does: the reduced scan is faithful to the real
step function. -/
theorem gpu_step_fsm_bridge (g : GPU) (h : g.lcd_display_enabled = true) :
    GpuFsm.ofGPU (g.step 1) = (GpuFsm.ofGPU g).step := by
  rcases g with
    ⟨vr, oa, cyc, en, lyc, btd, btm, bde, bwp, osz, ode, p0, p1, ly, mode,
      wtm, wde, wx, wy, sx, sy, q1, q2, q3, q4⟩
  simp only at h
  subst h
  cases mode <;>
    simp only [GPU.step, GpuFsm.step, GpuFsm.toGPU, GpuFsm.ofGPU, GPU.new,
      Bool.not_true, Bool.false_eq_true, if_false] <;>
    split_ifs <;> rfl

/-- Unfolding one step of the frame scan. -/
theorem FrameScan.run_succ (n : Nat) (s : FrameScan) :
    FrameScan.run (n + 1) s = FrameScan.run n (FrameScan.next s) := by
  rcases s with ⟨⟨m, ly, cyc⟩, w, ok⟩
  rfl

/-- The frame scan splits over addition of cycle counts. -/
theorem FrameScan.run_add (a b : Nat) (s : FrameScan) :
    FrameScan.run (a + b) s = FrameScan.run b (FrameScan.run a s) := by
  induction a generalizing s with
  | zero =>
      rw [Nat.zero_add]
      rcases s with ⟨⟨m, ly, cyc⟩, w, ok⟩
      rfl
  | succ a ih =>
      rw [show a + 1 + b = (a + b) + 1 from by omega, FrameScan.run_succ, ih,
        ← FrameScan.run_succ]


/-- Frame scan chunk 00. -/
theorem frame_chunk_00 :
    FrameScan.run 1808 ⟨⟨Mode.OAMAccess, 0, 0⟩, 0, true⟩ = ⟨⟨Mode.OAMAccess, 4, 0⟩, 0, true⟩ := by
  decide

/-- Frame scan chunk 01. -/
theorem frame_chunk_01 :
    FrameScan.run 1808 ⟨⟨Mode.OAMAccess, 4, 0⟩, 0, true⟩ = ⟨⟨Mode.OAMAccess, 8, 0⟩, 0, true⟩ := by
  decide

/-- Frame scan chunk 02. -/
theorem frame_chunk_02 :
    FrameScan.run 1808 ⟨⟨Mode.OAMAccess, 8, 0⟩, 0, true⟩ = ⟨⟨Mode.OAMAccess, 12, 0⟩, 0, true⟩ := by
  decide

/-- Frame scan chunk 03. -/
theorem frame_chunk_03 :
    FrameScan.run 1808 ⟨⟨Mode.OAMAccess, 12, 0⟩, 0, true⟩ = ⟨⟨Mode.OAMAccess, 16, 0⟩, 0, true⟩ := by
  decide

/-- Frame scan chunk 04. -/
theorem frame_chunk_04 :
    FrameScan.run 1808 ⟨⟨Mode.OAMAccess, 16, 0⟩, 0, true⟩ = ⟨⟨Mode.OAMAccess, 20, 0⟩, 0, true⟩ := by
  decide

/-- Frame scan chunk 05. -/
theorem frame_chunk_05 :
    FrameScan.run 1808 ⟨⟨Mode.OAMAccess, 20, 0⟩, 0, true⟩ = ⟨⟨Mode.OAMAccess, 24, 0⟩, 0, true⟩ := by
  decide

/-- Frame scan chunk 06. -/
theorem frame_chunk_06 :
    FrameScan.run 1808 ⟨⟨Mode.OAMAccess, 24, 0⟩, 0, true⟩ = ⟨⟨Mode.OAMAccess, 28, 0⟩, 0, true⟩ := by
  decide

/-- Frame scan chunk 07. -/
theorem frame_chunk_07 :
    FrameScan.run 1808 ⟨⟨Mode.OAMAccess, 28, 0⟩, 0, true⟩ = ⟨⟨Mode.OAMAccess, 32, 0⟩, 0, true⟩ := by
  decide

/-- Frame scan chunk 08. -/
theorem frame_chunk_08 :
    FrameScan.run 1808 ⟨⟨Mode.OAMAccess, 32, 0⟩, 0, true⟩ = ⟨⟨Mode.OAMAccess, 36, 0⟩, 0, true⟩ := by
  decide

/-- Frame scan chunk 09. -/
theorem frame_chunk_09 :
    FrameScan.run 1808 ⟨⟨Mode.OAMAccess, 36, 0⟩, 0, true⟩ = ⟨⟨Mode.OAMAccess, 40, 0⟩, 0, true⟩ := by
  decide

/-- Frame scan chunk 10. -/
theorem frame_chunk_10 :
    FrameScan.run 1808 ⟨⟨Mode.OAMAccess, 40, 0⟩, 0, true⟩ = ⟨⟨Mode.OAMAccess, 44, 0⟩, 0, true⟩ := by
  decide

/-- Frame scan chunk 11. -/
theorem frame_chunk_11 :
    FrameScan.run 1808 ⟨⟨Mode.OAMAccess, 44, 0⟩, 0, true⟩ = ⟨⟨Mode.OAMAccess, 48, 0⟩, 0, true⟩ := by
  decide

/-- Frame scan chunk 12. -/
theorem frame_chunk_12 :
    FrameScan.run 1808 ⟨⟨Mode.OAMAccess, 48, 0⟩, 0, true⟩ = ⟨⟨Mode.OAMAccess, 52, 0⟩, 0, true⟩ := by
  decide

/-- Frame scan chunk 13. -/
theorem frame_chunk_13 :
    FrameScan.run 1808 ⟨⟨Mode.OAMAccess, 52, 0⟩, 0, true⟩ = ⟨⟨Mode.OAMAccess, 56, 0⟩, 0, true⟩ := by
  decide

/-- Frame scan chunk 14. -/
theorem frame_chunk_14 :
    FrameScan.run 1808 ⟨⟨Mode.OAMAccess, 56, 0⟩, 0, true⟩ = ⟨⟨Mode.OAMAccess, 60, 0⟩, 0, true⟩ := by
  decide

/-- Frame scan chunk 15. -/
theorem frame_chunk_15 :
    FrameScan.run 1808 ⟨⟨Mode.OAMAccess, 60, 0⟩, 0, true⟩ = ⟨⟨Mode.OAMAccess, 64, 0⟩, 0, true⟩ := by
  decide

/-- Frame scan chunk 16. -/
theorem frame_chunk_16 :
    FrameScan.run 1808 ⟨⟨Mode.OAMAccess, 64, 0⟩, 0, true⟩ = ⟨⟨Mode.OAMAccess, 68, 0⟩, 0, true⟩ := by
  decide

/-- Frame scan chunk 17. -/
theorem frame_chunk_17 :
    FrameScan.run 1808 ⟨⟨Mode.OAMAccess, 68, 0⟩, 0, true⟩ = ⟨⟨Mode.OAMAccess, 72, 0⟩, 0, true⟩ := by
  decide

/-- Frame scan chunk 18. -/
theorem frame_chunk_18 :
    FrameScan.run 1808 ⟨⟨Mode.OAMAccess, 72, 0⟩, 0, true⟩ = ⟨⟨Mode.OAMAccess, 76, 0⟩, 0, true⟩ := by
  decide

/-- Frame scan chunk 19. -/
theorem frame_chunk_19 :
    FrameScan.run 1808 ⟨⟨Mode.OAMAccess, 76, 0⟩, 0, true⟩ = ⟨⟨Mode.OAMAccess, 80, 0⟩, 0, true⟩ := by
  decide

/-- Frame scan chunk 20. -/
theorem frame_chunk_20 :
    FrameScan.run 1808 ⟨⟨Mode.OAMAccess, 80, 0⟩, 0, true⟩ = ⟨⟨Mode.OAMAccess, 84, 0⟩, 0, true⟩ := by
  decide

/-- Frame scan chunk 21. -/
theorem frame_chunk_21 :
    FrameScan.run 1808 ⟨⟨Mode.OAMAccess, 84, 0⟩, 0, true⟩ = ⟨⟨Mode.OAMAccess, 88, 0⟩, 0, true⟩ := by
  decide

/-- Frame scan chunk 22. -/
theorem frame_chunk_22 :
    FrameScan.run 1808 ⟨⟨Mode.OAMAccess, 88, 0⟩, 0, true⟩ = ⟨⟨Mode.OAMAccess, 92, 0⟩, 0, true⟩ := by
  decide

/-- Frame scan chunk 23. -/
theorem frame_chunk_23 :
    FrameScan.run 1808 ⟨⟨Mode.OAMAccess, 92, 0⟩, 0, true⟩ = ⟨⟨Mode.OAMAccess, 96, 0⟩, 0, true⟩ := by
  decide

/-- Frame scan chunk 24. -/
theorem frame_chunk_24 :
    FrameScan.run 1808 ⟨⟨Mode.OAMAccess, 96, 0⟩, 0, true⟩ = ⟨⟨Mode.OAMAccess, 100, 0⟩, 0, true⟩ := by
  decide

/-- Frame scan chunk 25. -/
theorem frame_chunk_25 :
    FrameScan.run 1808 ⟨⟨Mode.OAMAccess, 100, 0⟩, 0, true⟩ = ⟨⟨Mode.OAMAccess, 104, 0⟩, 0, true⟩ := by
  decide

/-- Frame scan chunk 26. -/
theorem frame_chunk_26 :
    FrameScan.run 1808 ⟨⟨Mode.OAMAccess, 104, 0⟩, 0, true⟩ = ⟨⟨Mode.OAMAccess, 108, 0⟩, 0, true⟩ := by
  decide

/-- Frame scan chunk 27. -/
theorem frame_chunk_27 :
    FrameScan.run 1808 ⟨⟨Mode.OAMAccess, 108, 0⟩, 0, true⟩ = ⟨⟨Mode.OAMAccess, 112, 0⟩, 0, true⟩ := by
  decide

/-- Frame scan chunk 28. -/
theorem frame_chunk_28 :
    FrameScan.run 1808 ⟨⟨Mode.OAMAccess, 112, 0⟩, 0, true⟩ = ⟨⟨Mode.OAMAccess, 116, 0⟩, 0, true⟩ := by
  decide

/-- Frame scan chunk 29. -/
theorem frame_chunk_29 :
    FrameScan.run 1808 ⟨⟨Mode.OAMAccess, 116, 0⟩, 0, true⟩ = ⟨⟨Mode.OAMAccess, 120, 0⟩, 0, true⟩ := by
  decide

/-- Frame scan chunk 30. -/
theorem frame_chunk_30 :
    FrameScan.run 1808 ⟨⟨Mode.OAMAccess, 120, 0⟩, 0, true⟩ = ⟨⟨Mode.OAMAccess, 124, 0⟩, 0, true⟩ := by
  decide

/-- Frame scan chunk 31. -/
theorem frame_chunk_31 :
    FrameScan.run 1808 ⟨⟨Mode.OAMAccess, 124, 0⟩, 0, true⟩ = ⟨⟨Mode.OAMAccess, 128, 0⟩, 0, true⟩ := by
  decide

/-- Frame scan chunk 32. -/
theorem frame_chunk_32 :
    FrameScan.run 1808 ⟨⟨Mode.OAMAccess, 128, 0⟩, 0, true⟩ = ⟨⟨Mode.OAMAccess, 132, 0⟩, 0, true⟩ := by
  decide

/-- Frame scan chunk 33. -/
theorem frame_chunk_33 :
    FrameScan.run 1808 ⟨⟨Mode.OAMAccess, 132, 0⟩, 0, true⟩ = ⟨⟨Mode.OAMAccess, 136, 0⟩, 0, true⟩ := by
  decide

/-- Frame scan chunk 34. -/
theorem frame_chunk_34 :
    FrameScan.run 1808 ⟨⟨Mode.OAMAccess, 136, 0⟩, 0, true⟩ = ⟨⟨Mode.OAMAccess, 140, 0⟩, 0, true⟩ := by
  decide

/-- Frame scan chunk 35. -/
theorem frame_chunk_35 :
    FrameScan.run 1808 ⟨⟨Mode.OAMAccess, 140, 0⟩, 0, true⟩ = ⟨⟨Mode.VBlank, 144, 0⟩, 0, true⟩ := by
  decide

/-- Frame scan chunk 36. -/
theorem frame_chunk_36 :
    FrameScan.run 904 ⟨⟨Mode.VBlank, 144, 0⟩, 0, true⟩ = ⟨⟨Mode.VBlank, 145, 448⟩, 0, true⟩ := by
  decide

/-- Frame scan chunk 37. -/
theorem frame_chunk_37 :
    FrameScan.run 904 ⟨⟨Mode.VBlank, 145, 448⟩, 0, true⟩ = ⟨⟨Mode.VBlank, 147, 440⟩, 0, true⟩ := by
  decide

/-- Frame scan chunk 38. -/
theorem frame_chunk_38 :
    FrameScan.run 904 ⟨⟨Mode.VBlank, 147, 440⟩, 0, true⟩ = ⟨⟨Mode.VBlank, 149, 432⟩, 0, true⟩ := by
  decide

/-- Frame scan chunk 39. -/
theorem frame_chunk_39 :
    FrameScan.run 904 ⟨⟨Mode.VBlank, 149, 432⟩, 0, true⟩ = ⟨⟨Mode.VBlank, 151, 424⟩, 0, true⟩ := by
  decide

/-- Frame scan chunk 40. -/
theorem frame_chunk_40 :
    FrameScan.run 904 ⟨⟨Mode.VBlank, 151, 424⟩, 0, true⟩ = ⟨⟨Mode.VBlank, 153, 416⟩, 0, true⟩ := by
  decide

/-- Frame scan chunk 41. -/
theorem frame_chunk_41 :
    FrameScan.run 40 ⟨⟨Mode.VBlank, 153, 416⟩, 0, true⟩ = ⟨⟨Mode.OAMAccess, 0, 0⟩, 1, true⟩ := by
  decide

/-- One full frame of the scan: 69,648 single-cycle ticks of the real
GPU step return the pipeline to the frame boundary with exactly one
LY wrap and LY within 0-153, moving by steps of one, throughout. -/
theorem frame_scan_run :
    FrameScan.run 69648 frame_scan_start = ⟨⟨Mode.OAMAccess, 0, 0⟩, 1, true⟩ := by
  show FrameScan.run 69648 (⟨⟨Mode.OAMAccess, 0, 0⟩, 0, true⟩ : FrameScan) = _
  rw [show (69648 : Nat) = 1808 + 67840 from rfl,
    FrameScan.run_add,
    frame_chunk_00,
    show (67840 : Nat) = 1808 + 66032 from rfl,
    FrameScan.run_add,
    frame_chunk_01,
    show (66032 : Nat) = 1808 + 64224 from rfl,
    FrameScan.run_add,
    frame_chunk_02,
    show (64224 : Nat) = 1808 + 62416 from rfl,
    FrameScan.run_add,
    frame_chunk_03,
    show (62416 : Nat) = 1808 + 60608 from rfl,
    FrameScan.run_add,
    frame_chunk_04,
    show (60608 : Nat) = 1808 + 58800 from rfl,
    FrameScan.run_add,
    frame_chunk_05,
    show (58800 : Nat) = 1808 + 56992 from rfl,
    FrameScan.run_add,
    frame_chunk_06,
    show (56992 : Nat) = 1808 + 55184 from rfl,
    FrameScan.run_add,
    frame_chunk_07,
    show (55184 : Nat) = 1808 + 53376 from rfl,
    FrameScan.run_add,
    frame_chunk_08,
    show (53376 : Nat) = 1808 + 51568 from rfl,
    FrameScan.run_add,
    frame_chunk_09,
    show (51568 : Nat) = 1808 + 49760 from rfl,
    FrameScan.run_add,
    frame_chunk_10,
    show (49760 : Nat) = 1808 + 47952 from rfl,
    FrameScan.run_add,
    frame_chunk_11,
    show (47952 : Nat) = 1808 + 46144 from rfl,
    FrameScan.run_add,
    frame_chunk_12,
    show (46144 : Nat) = 1808 + 44336 from rfl,
    FrameScan.run_add,
    frame_chunk_13,
    show (44336 : Nat) = 1808 + 42528 from rfl,
    FrameScan.run_add,
    frame_chunk_14,
    show (42528 : Nat) = 1808 + 40720 from rfl,
    FrameScan.run_add,
    frame_chunk_15,
    show (40720 : Nat) = 1808 + 38912 from rfl,
    FrameScan.run_add,
    frame_chunk_16,
    show (38912 : Nat) = 1808 + 37104 from rfl,
    FrameScan.run_add,
    frame_chunk_17,
    show (37104 : Nat) = 1808 + 35296 from rfl,
    FrameScan.run_add,
    frame_chunk_18,
    show (35296 : Nat) = 1808 + 33488 from rfl,
    FrameScan.run_add,
    frame_chunk_19,
    show (33488 : Nat) = 1808 + 31680 from rfl,
    FrameScan.run_add,
    frame_chunk_20,
    show (31680 : Nat) = 1808 + 29872 from rfl,
    FrameScan.run_add,
    frame_chunk_21,
    show (29872 : Nat) = 1808 + 28064 from rfl,
    FrameScan.run_add,
    frame_chunk_22,
    show (28064 : Nat) = 1808 + 26256 from rfl,
    FrameScan.run_add,
    frame_chunk_23,
    show (26256 : Nat) = 1808 + 24448 from rfl,
    FrameScan.run_add,
    frame_chunk_24,
    show (24448 : Nat) = 1808 + 22640 from rfl,
    FrameScan.run_add,
    frame_chunk_25,
    show (22640 : Nat) = 1808 + 20832 from rfl,
    FrameScan.run_add,
    frame_chunk_26,
    show (20832 : Nat) = 1808 + 19024 from rfl,
    FrameScan.run_add,
    frame_chunk_27,
    show (19024 : Nat) = 1808 + 17216 from rfl,
    FrameScan.run_add,
    frame_chunk_28,
    show (17216 : Nat) = 1808 + 15408 from rfl,
    FrameScan.run_add,
    frame_chunk_29,
    show (15408 : Nat) = 1808 + 13600 from rfl,
    FrameScan.run_add,
    frame_chunk_30,
    show (13600 : Nat) = 1808 + 11792 from rfl,
    FrameScan.run_add,
    frame_chunk_31,
    show (11792 : Nat) = 1808 + 9984 from rfl,
    FrameScan.run_add,
    frame_chunk_32,
    show (9984 : Nat) = 1808 + 8176 from rfl,
    FrameScan.run_add,
    frame_chunk_33,
    show (8176 : Nat) = 1808 + 6368 from rfl,
    FrameScan.run_add,
    frame_chunk_34,
    show (6368 : Nat) = 1808 + 4560 from rfl,
    FrameScan.run_add,
    frame_chunk_35,
    show (4560 : Nat) = 904 + 3656 from rfl,
    FrameScan.run_add,
    frame_chunk_36,
    show (3656 : Nat) = 904 + 2752 from rfl,
    FrameScan.run_add,
    frame_chunk_37,
    show (2752 : Nat) = 904 + 1848 from rfl,
    FrameScan.run_add,
    frame_chunk_38,
    show (1848 : Nat) = 904 + 944 from rfl,
    FrameScan.run_add,
    frame_chunk_39,
    show (944 : Nat) = 904 + 40 from rfl,
    FrameScan.run_add,
    frame_chunk_40,
    frame_chunk_41]


/-- Claim C6 (amended): with the LCD enabled, LY advances monotonically
through 0-153 (holding, stepping by one at the end of each H-blank and
at each 456-cycle tick of V-blank, or wrapping 153 to 0) and wraps back
to 0 exactly once every 69,648 cycles of GPU::step, not every 70,224:
in this code a visible scanline lasts 80 + 172 + 200 = 452 cycles, so a
frame is 144 * 452 + 10 * 456 = 69,648 cycles.  The first conjunct ties
the scan to the real GPU.step; the second runs one full frame. -/
theorem C6_frame_cadence :
    (∀ g : GPU, g.lcd_display_enabled = true →
      GpuFsm.ofGPU (g.step 1) = (GpuFsm.ofGPU g).step) ∧
    FrameScan.run 69648 frame_scan_start = ⟨⟨Mode.OAMAccess, 0, 0⟩, 1, true⟩ :=
  ⟨gpu_step_fsm_bridge, frame_scan_run⟩

/-- Claim C6 witness: the bridge conjunct evaluated at a concrete
enabled GPU. -/
theorem C6_frame_cadence_witness :
    GpuFsm.ofGPU ((GpuFsm.toGPU ⟨Mode.OAMAccess, 0, 0⟩).step 1) =
      (GpuFsm.ofGPU (GpuFsm.toGPU ⟨Mode.OAMAccess, 0, 0⟩)).step :=
  C6_frame_cadence.1 (GpuFsm.toGPU ⟨Mode.OAMAccess, 0, 0⟩) rfl

/-- Claim C6 counterexample: 70,224 cycles after a frame boundary the
pipeline is NOT back at the boundary: LY reads 1 and the mode machine
sits 44 cycles into the pixel-transfer of line 1, because the frame
period of this code is 69,648 cycles, not 70,224. -/
theorem C6_counterexample :
    (FrameScan.run 70224 frame_scan_start).fsm = ⟨Mode.VRAMAccess, 1, 44⟩ ∧
    (FrameScan.run 70224 frame_scan_start).fsm ≠ frame_scan_start.fsm := by
  have h2 : FrameScan.run 576 ⟨⟨Mode.OAMAccess, 0, 0⟩, 1, true⟩ =
      ⟨⟨Mode.VRAMAccess, 1, 44⟩, 1, true⟩ := by decide
  have key : FrameScan.run 70224 frame_scan_start =
      ⟨⟨Mode.VRAMAccess, 1, 44⟩, 1, true⟩ := by
    rw [show (70224 : Nat) = 69648 + 576 from rfl, FrameScan.run_add,
      frame_scan_run, h2]
  rw [key]
  constructor
  · rfl
  · decide

end ErkiBoy
